import Mathlib

/-!
Verification development for the WhatsAppBot-AI conversational decision
engine: a shallow embedding, in Lean 4, of the Flow State Machine
(`modules/flow-engine.js`, shipped as `src/unnamed/part_004`) and of the
Response Matching Engine (`src/ai/brain.js`, which contains both the
`AIBrain` v1 class and the `AdvancedAIBrain` v2 class), together with
theorems settling the specification claims about retry/fallback handling,
error funnelling, learning dedup, response caching, candidate fusion,
intent detection, quick replies, context boosting, input validation and
total message processing.

Machine integers are modelled as `Nat`/`Int` and JavaScript numbers as `ℚ`
(exact rationals; IEEE rounding is not modelled, and `NaN` propagation is
modelled at the points where the source can produce it).  External npm
libraries (`natural`'s TF-IDF, Jaro-Winkler and Bayes classifier, the
`sentiment` analyzer, `compromise`) are modelled as environment functions,
since they are collaborators and not code of this repository; the
repository's own algorithms (Levenshtein use, Jaccard fusion, regex
tables, validators, flow dispatch) are embedded from the source.
-/

set_option maxHeartbeats 1000000
set_option linter.unusedVariables false

namespace WhatsAppBot

/-! ## JavaScript string primitives -/

/-- The whitespace characters recognised by the JS `\s` class and
`String.prototype.trim` (the common subset used by this code base:
space, tab, LF, VT, FF, CR and NBSP). -/
def isJsSpace (c : Char) : Bool :=
  c = ' ' || c = '\t' || c = '\n' || c = '\r' ||
  c = Char.ofNat 11 || c = Char.ofNat 12 || c = Char.ofNat 0xA0

/-- JS `String.prototype.toLowerCase` on one character, covering ASCII and
the Latin-1 supplement letters that appear in this code base's pattern
tables (`À`–`Þ` map to `à`–`þ`, with `×` excluded as in Unicode). -/
def jsToLowerChar (c : Char) : Char :=
  if 'A' ≤ c && c ≤ 'Z' then Char.ofNat (c.toNat + 32)
  else if 0xC0 ≤ c.toNat && c.toNat ≤ 0xD6 then Char.ofNat (c.toNat + 32)
  else if 0xD8 ≤ c.toNat && c.toNat ≤ 0xDE then Char.ofNat (c.toNat + 32)
  else c

/-- JS `String.prototype.toLowerCase`. -/
def jsToLower (s : String) : String :=
  String.mk (s.data.map jsToLowerChar)

/-- JS `String.prototype.trim`. -/
def jsTrim (s : String) : String :=
  String.mk (((s.data.dropWhile isJsSpace).reverse.dropWhile isJsSpace).reverse)

/-- Membership of `sub` as a contiguous run of `l` (the semantics of JS
`String.prototype.includes`, empty pattern included). -/
def listHasRun [DecidableEq α] : List α → List α → Bool
  | _, [] => true
  | [], _ :: _ => false
  | a :: as, sub => sub.isPrefixOf (a :: as) || listHasRun as sub

/-- JS `s.includes(sub)`. -/
def jsIncludes (s sub : String) : Bool :=
  listHasRun s.data sub.data

/-- JS `s.startsWith(p)` / an anchored `^(...)` regex alternative. -/
def jsStartsWith (s p : String) : Bool :=
  p.data.isPrefixOf s.data

/-- ASCII word character, the JS regex `\w` class. -/
def isWordChar (c : Char) : Bool :=
  ('a' ≤ c && c ≤ 'z') || ('A' ≤ c && c ≤ 'Z') || ('0' ≤ c && c ≤ '9') || c = '_'

/-- Folds the lowercase Latin-1 accented letters produced by this code
base's inputs to their base letter: the effect of
`.normalize('NFD').replace(/[̀-ͯ]/g, '')` on text that was
already lowercased. -/
def stripAccentChar (c : Char) : Char :=
  if ['à', 'á', 'â', 'ã', 'ä', 'å'].contains c then 'a'
  else if ['è', 'é', 'ê', 'ë'].contains c then 'e'
  else if ['ì', 'í', 'î', 'ï'].contains c then 'i'
  else if ['ò', 'ó', 'ô', 'õ', 'ö'].contains c then 'o'
  else if ['ù', 'ú', 'û', 'ü'].contains c then 'u'
  else if c = 'ç' then 'c'
  else if c = 'ñ' then 'n'
  else if ['ý', 'ÿ'].contains c then 'y'
  else c

/-- Collapses every run of JS whitespace into a single space:
`.replace(/\s+/g, ' ')`. -/
def collapseWs : List Char → List Char
  | [] => []
  | [c] => [if isJsSpace c then ' ' else c]
  | c :: d :: rest =>
    if isJsSpace c then
      (if isJsSpace d then collapseWs (d :: rest) else ' ' :: collapseWs (d :: rest))
    else c :: collapseWs (d :: rest)

/-- The shared text-normalisation pipeline of `AIBrain.sanitize` and
`AdvancedAIBrain.preprocessText`: lowercase, strip accents (NFD +
combining-mark removal), replace every non-`\w`-non-`\s` character with a
space, collapse whitespace, trim. -/
def normalizePipeline (s : String) : String :=
  let lowered := (s.data.map jsToLowerChar).map stripAccentChar
  let spaced := lowered.map (fun c => if isWordChar c || isJsSpace c then c else ' ')
  jsTrim (String.mk (collapseWs spaced))

/-- `natural.WordTokenizer`: maximal runs of word characters. -/
def tokenizeGo : List Char → List Char → List String
  | [], acc => if acc.isEmpty then [] else [String.mk acc.reverse]
  | c :: rest, acc =>
    if isWordChar c then tokenizeGo rest (c :: acc)
    else if acc.isEmpty then tokenizeGo rest []
    else String.mk acc.reverse :: tokenizeGo rest []

/-- Tokenize a string into its word-character runs. -/
def tokenize (s : String) : List String :=
  tokenizeGo s.data []

/-! ## Levenshtein distance (`natural.LevenshteinDistance`, unit costs),
implemented as the classic row-by-row dynamic program so that it is
structurally recursive and kernel-computable. -/

/-- One inner step of the Levenshtein row update: walks the reference
characters together with adjacent pairs of the previous row, carrying the
last computed cell of the current row. -/
def levStep (y : Char) : List Char → List Nat → Nat → List Nat
  | [], _, _ => []
  | x :: xs, p0 :: p1 :: ps, d =>
    let c := min (p0 + (if x = y then 0 else 1)) (min (p1 + 1) (d + 1))
    c :: levStep y xs (p1 :: ps) c
  | _ :: _, _, _ => []

/-- Levenshtein distance between two strings. -/
def levenshtein (s t : String) : Nat :=
  let xs := s.data
  let init : List Nat := List.range (xs.length + 1)
  let final := t.data.foldl (fun prev y =>
    match prev with
    | [] => []
    | p0 :: _ => (p0 + 1) :: levStep y xs prev (p0 + 1)) init
  final.getLastD 0

/-! ## Sorting with the semantics of JS `Array.prototype.sort` with a
strict numeric comparator (a stable sort). -/

/-- Inserts `a` before the first element that must come strictly after it,
so that the fold below is a stable sort. -/
def stableInsert (before : α → α → Bool) (a : α) : List α → List α
  | [] => [a]
  | b :: bs => if before a b then a :: b :: bs else b :: stableInsert before a bs

/-- Stable sort by the strict precedence predicate `before` (the model of
`array.sort(cmp)` for a comparator that returns a negative number exactly
when its first argument must precede its second). -/
def stableSort (before : α → α → Bool) (l : List α) : List α :=
  l.foldl (fun acc a => stableInsert before a acc) []

/-- Descending sort by a rational-valued key, stable:
`array.sort((a, b) => key(b) - key(a))`. -/
def sortDescBy (f : α → ℚ) (l : List α) : List α :=
  stableSort (fun a b => f b < f a) l

/-! ## JS values and `parseFloat` -/

/-- A JavaScript value as far as this code base passes them around:
strings, finite numbers, or anything non-string (`undefined`, `null`,
objects…) that the brain's `sanitizeInput` maps to the empty string. -/
inductive JSVal where
  | str (s : String)
  | num (q : ℚ)
  | other
deriving DecidableEq

/-- Digit value of an ASCII digit character. -/
def digitVal (c : Char) : Nat := c.toNat - '0'.toNat

/-- Value of a list of ASCII digits read in base 10. -/
def digitsToNat (ds : List Char) : Nat :=
  ds.foldl (fun acc c => acc * 10 + digitVal c) 0

/-- JS `parseFloat`: skip leading whitespace, optional sign, decimal
digits with optional fraction and optional exponent, reading the longest
valid prefix; `none` models `NaN` (no digits at all).  `Infinity`
literals and IEEE rounding are not modelled. -/
def jsParseFloat (s : String) : Option ℚ :=
  let cs := s.data.dropWhile isJsSpace
  let (neg, cs) : Bool × List Char :=
    match cs with
    | '-' :: rest => (true, rest)
    | '+' :: rest => (false, rest)
    | _ => (false, cs)
  let intPart := cs.takeWhile Char.isDigit
  let cs1 := cs.drop intPart.length
  let (fracPart, cs2) : List Char × List Char :=
    match cs1 with
    | '.' :: rest => (rest.takeWhile Char.isDigit, rest.drop (rest.takeWhile Char.isDigit).length)
    | _ => ([], cs1)
  if intPart.isEmpty && fracPart.isEmpty then none
  else
    let mantissa : ℚ :=
      (digitsToNat intPart : ℚ) + (digitsToNat fracPart : ℚ) / ((10 : ℚ) ^ fracPart.length)
    let expFactor : ℚ :=
      match cs2 with
      | 'e' :: rest | 'E' :: rest =>
        let (eneg, rest') : Bool × List Char :=
          match rest with
          | '-' :: r => (true, r)
          | '+' :: r => (false, r)
          | _ => (false, rest)
        let eDigits := rest'.takeWhile Char.isDigit
        if eDigits.isEmpty then 1
        else if eneg then ((10 : ℚ) ^ digitsToNat eDigits)⁻¹
        else (10 : ℚ) ^ digitsToNat eDigits
      | _ => 1
    some ((if neg then -1 else 1) * mantissa * expFactor)

/-- JS `Map.prototype.set` / object property write: update in place if the
key exists, else append (insertion order preserved). -/
def mapSet (m : List (String × β)) (k : String) (v : β) : List (String × β) :=
  if m.any (fun p => p.1 = k) then m.map (fun p => if p.1 = k then (k, v) else p)
  else m ++ [(k, v)]

/-- Truthiness of a JS value as this code base tests it (`other` stands
for the falsy non-string values `null`/`undefined`). -/
def jsTruthy : JSVal → Bool
  | .str s => !s.isEmpty
  | .num q => q != 0
  | .other => false

/-- String coercion of a JS value for template substitution (integral
numbers print without a fraction; non-integral formatting is noncritical
to every claim). -/
def jsValToString : JSVal → String
  | .str s => s
  | .num q => if q.den = 1 then toString q.num else toString q
  | .other => "undefined"

/-! ## Training data and the persistence gateway (`database/database.js`) -/

/-- One row of the `ai_training` table: `saveTrainingData` only ever sets
`input`, `output` and `confidence`; `usage_count` and `approved` take the
schema defaults `0`. -/
structure TrainingExample where
  id : Nat
  input : String
  output : String
  confidence : ℚ
  usage_count : Nat
  approved : Nat
deriving DecidableEq

/-- `database.getTrainingData()`:
`SELECT * FROM ai_training WHERE approved = 1 ORDER BY usage_count DESC`. -/
def getTrainingData (db : List TrainingExample) : List TrainingExample :=
  stableSort (fun a b => b.usage_count < a.usage_count) (db.filter (fun e => e.approved = 1))

/-- `database.saveTrainingData(input, output, confidence = 0)`: inserts a
row with the defaults `usage_count = 0`, `approved = 0` (the function has
no `approved` parameter, so the flag its callers try to pass is dropped). -/
def saveTrainingData (db : List TrainingExample) (input output : String) (confidence : ℚ) :
    List TrainingExample :=
  db ++ [⟨db.length + 1, input, output, confidence, 0, 0⟩]

/-- `database.updateTrainingUsage(id)`: bumps `usage_count` of one row. -/
def updateTrainingUsage (db : List TrainingExample) (id : Nat) : List TrainingExample :=
  db.map (fun e => if e.id = id then { e with usage_count := e.usage_count + 1 } else e)

namespace AIBrain

/-- `AIBrain.sanitize`: lowercase, strip accents, replace `[^\w\s]` with a
space, collapse whitespace, trim. -/
def sanitize (text : String) : String :=
  normalizePipeline text

/-- `AIBrain.calculateSimilarity`: token-set Jaccard similarity fused with
normalized Levenshtein similarity, weighted 0.6/0.4.  Divisions are exact
rationals; when a denominator is `0` the JS code produces `NaN` and Lean's
convention gives `0`, a case none of the call sites relied on here reach. -/
def calculateSimilarity (text1 text2 : String) : ℚ :=
  let tokens1 := (tokenize text1).dedup
  let tokens2 := (tokenize text2).dedup
  let inter := tokens1.filter (fun t => tokens2.contains t)
  let union := (tokens1 ++ tokens2).dedup
  let jaccardSim : ℚ := (inter.length : ℚ) / (union.length : ℚ)
  let maxLen := max text1.length text2.length
  let levDist := levenshtein text1 text2
  let levSim : ℚ := 1 - (levDist : ℚ) / (maxLen : ℚ)
  jaccardSim * (0.6 : ℚ) + levSim * (0.4 : ℚ)

/-- The in-memory state of the v1 `AIBrain` that `learn` reads and
writes: the learning switch, the loaded corpus and the backing
`ai_training` table. -/
structure State where
  learningEnabled : Bool
  trainingData : List TrainingExample
  db : List TrainingExample
deriving DecidableEq

/-- `AIBrain.loadTrainingData`: reload the corpus from the gateway. -/
def loadTrainingData (st : State) : State :=
  { st with trainingData := getTrainingData st.db }

/-- `AIBrain.learn(input, output, approved)`: refuse when learning is
disabled; sanitize the input and trim the output; reject (returning
`false`, state untouched) when some loaded training example's input has
fused similarity above `0.9` to the sanitized input; otherwise insert via
`saveTrainingData(cleanInput, cleanOutput, approved ? 1 : 0)` — the flag
lands in the `confidence` column, `approved` stays `0` — and reload. -/
def learn (st : State) (input output : String) (approved : Bool) : Bool × State :=
  if !st.learningEnabled then (false, st)
  else
    let cleanInput := sanitize input
    let cleanOutput := jsTrim output
    match st.trainingData.find? (fun item => (0.9 : ℚ) < calculateSimilarity cleanInput item.input) with
    | some _ => (false, st)
    | none =>
      let db' := saveTrainingData st.db cleanInput cleanOutput (if approved then 1 else 0)
      (true, loadTrainingData { st with db := db' })

end AIBrain

/-! ## The `AdvancedAIBrain` v2 engine -/

/-- Case-insensitive containment of any of `alts` in `text`: the model of
an unanchored `/(a|b|…)/i` regex `test`. -/
def containsAnyCI (text : String) (alts : List String) : Bool :=
  alts.any (fun a => jsIncludes (jsToLower text) (jsToLower a))

/-- One JS regex of the brain's pattern tables, in the three shapes the
tables use: an anchored case-insensitive alternation `/^(a|b|…)/i`, an
unanchored one `/(a|b|…)/i`, and the question-mark anchor `/\?$/`. -/
inductive JsPattern where
  | startsAny (alts : List String)
  | containsAny (alts : List String)
  | endsWithQuestionMark
deriving DecidableEq

/-- `pattern.test(text)` for the three pattern shapes. -/
def JsPattern.test (p : JsPattern) (text : String) : Bool :=
  match p with
  | .startsAny alts => alts.any (fun a => jsStartsWith (jsToLower text) (jsToLower a))
  | .containsAny alts => containsAnyCI text alts
  | .endsWithQuestionMark => text.data.getLast? = some '?'

namespace AdvancedAIBrain

/-- The environment of external npm collaborators the v2 brain calls
into: `natural`'s TF-IDF measure (per query text and document index),
Jaro-Winkler similarity, the trained Bayes classifier (`none` models both
a thrown classification error and a falsy result), the `sentiment`
analyzer's `(score, comparative)` pair, the `compromise`-based entity
annotation, and `natural.PorterStemmerPt.stem`.  These are library state,
not repository code, and are held fixed during a run. -/
structure Env where
  tfidfMeasure : String → Nat → ℚ
  jaroWinkler : String → String → ℚ
  bayesClassify : String → Option String
  sentimentRaw : String → ℚ × ℚ
  nlpEntities : String → List (String × List String)
  stem : String → String

/-- The v2 brain's configuration: `minConfidence` and `learningEnabled`
and `maxContextSize` come from environment variables, the cache knobs are
the literals of the constructor. -/
structure Config where
  minConfidence : ℚ
  learningEnabled : Bool
  maxContextSize : Nat
  cacheEnabled : Bool
  cacheMaxSize : Nat
  cacheTTL : Nat
deriving DecidableEq

/-- The hard-coded algorithm weights of `this.config.weights`. -/
def wTfidf : ℚ := 0.30

/-- Weight of the normalized-Levenshtein algorithm. -/
def wLevenshtein : ℚ := 0.25

/-- Weight of the Jaro-Winkler algorithm. -/
def wJaroWinkler : ℚ := 0.20

/-- Weight of the conversation-context boost. -/
def wContext : ℚ := 0.10

/-- One entry of a per-identity `conversationContext` ring. -/
structure ContextEntry where
  message : String
  intent : String
  sentiment : String
  timestamp : Nat
deriving DecidableEq

/-- The result of `analyzeSentiment` (the library's raw token annotations
are external and omitted). -/
structure SentimentResult where
  score : ℚ
  comparative : ℚ
  label : String
  emotions : List String
deriving DecidableEq

/-- The result object `processMessage` returns (the wall-clock
`processingTime` field is real time and is not modelled; `algorithm` is
absent, i.e. `none`, on the error response). -/
structure Result where
  response : String
  confidence : ℚ
  sentiment : SentimentResult
  intent : String
  entities : List (String × List String)
  keywords : List String
  needsHumanHandoff : Bool
  algorithm : Option String
  error : Option String := none
deriving DecidableEq

/-- A cache entry: the stored result and its insertion timestamp. -/
structure CacheEntry where
  response : Result
  timestamp : Nat
deriving DecidableEq

/-- One transient per-algorithm response candidate. -/
structure Candidate where
  text : String
  confidence : ℚ
  algorithm : String
  trainingId : Option Nat := none
deriving DecidableEq

/-- One fusion group: candidates sharing an output text, with the summed
confidence and the contributing algorithm tags. -/
structure Group where
  text : String
  confidence : ℚ
  algorithms : List String
deriving DecidableEq

/-- The value `findBestResponse` returns. -/
structure BestResp where
  text : String
  confidence : ℚ
  algorithm : String
deriving DecidableEq

/-- The slice of `userContext` the v2 brain reads (`userContext.phone`,
with `none` for a missing/falsy identity). -/
structure UserCtx where
  phone : Option String
deriving DecidableEq

/-- The brain's mutable statistics object (sentiment keys are created on
first use here; the source initializes the three labels so the observable
counts agree). -/
structure Stats where
  totalProcessed : Nat
  cacheHits : Nat
  averageConfidence : ℚ
  intentDistribution : List (String × Nat)
  sentimentDistribution : List (String × Nat)
deriving DecidableEq

/-- The v2 brain's state: the loaded corpus, the backing `ai_training`
table, the per-identity conversation contexts, the response cache
(insertion-ordered, as a JS `Map`), statistics and configuration. -/
structure State where
  config : Config
  trainingData : List TrainingExample
  db : List TrainingExample
  conversationContext : List (String × List ContextEntry)
  responseCache : List (String × CacheEntry)
  stats : Stats
deriving DecidableEq

/-- Increment a string-keyed counter: `(x[k] || 0) + 1`. -/
def mapBump (m : List (String × Nat)) (k : String) : List (String × Nat) :=
  mapSet m k (((m.lookup k).getD 0) + 1)

/-- `AdvancedAIBrain.sanitizeInput`: non-strings become `''`; strings are
trimmed, HTML tags (`/<[^>]*>/g`) are stripped, the characters `<>"'` are
removed, and the result is capped at 1000 characters. -/
def stripTagsGo : List Char → Option (List Char) → List Char
  | [], none => []
  | [], some buf => '<' :: buf.reverse
  | c :: rest, none =>
    if c = '<' then stripTagsGo rest (some []) else c :: stripTagsGo rest none
  | c :: rest, some buf =>
    if c = '>' then stripTagsGo rest none else stripTagsGo rest (some (c :: buf))

/-- `sanitizeInput` on a JS value. -/
def sanitizeInput (v : JSVal) : String :=
  match v with
  | .str s =>
    let t := jsTrim s
    let noTags := stripTagsGo t.data none
    let noDanger := noTags.filter (fun c => !(c = '<' || c = '>' || c = '"' || c = '\''))
    String.mk (noDanger.take 1000)
  | _ => ""

/-- `AdvancedAIBrain.preprocessText`: the shared normalisation pipeline. -/
def preprocessText (s : String) : String :=
  normalizePipeline s

/-- The `emotionPatterns` table of `detectEmotions`, in source order. -/
def emotionPatterns : List (String × List String) :=
  [("joy", ["feliz", "alegre", "contente", "animado", "satisfeito", "maravilhoso", "ótimo", "excelente"]),
   ("sadness", ["triste", "chateado", "decepcionado", "frustrado", "infeliz"]),
   ("anger", ["raiva", "irritado", "furioso", "bravo", "puto", "revoltado"]),
   ("fear", ["medo", "receio", "preocupado", "ansioso", "nervoso"]),
   ("surprise", ["surpreso", "chocado", "impressionado", "uau"]),
   ("disgust", ["nojo", "repugnante", "horrível", "péssimo"])]

/-- `detectEmotions`: every emotion whose pattern matches, in table order. -/
def detectEmotions (text : String) : List String :=
  emotionPatterns.filterMap (fun p => if containsAnyCI text p.2 then some p.1 else none)

/-- `analyzeSentiment`: the library score plus the threshold labelling
and emotion detection done by the repository code. -/
def analyzeSentiment (env : Env) (text : String) : SentimentResult :=
  let raw := env.sentimentRaw text
  let label :=
    if (0.2 : ℚ) < raw.2 then "positive"
    else if raw.2 < (-0.2 : ℚ) then "negative"
    else "neutral"
  { score := raw.1, comparative := raw.2, label := label, emotions := detectEmotions text }

/-- `extractEntities`, a `compromise`/regex annotation pass treated as an
external text-annotation collaborator (its output never feeds the
confidence computation). -/
def extractEntities (env : Env) (text : String) : List (String × List String) :=
  env.nlpEntities text

/-- `initializeIntentPatterns`: the ordered intent pattern table (JS
object literal keys enumerate in insertion order). -/
def intentPatterns : List (String × List JsPattern) :=
  [("greeting", [.startsAny ["oi", "ola", "olá", "hey", "opa", "eae", "e ai", "bom dia", "boa tarde", "boa noite"]]),
   ("farewell", [.startsAny ["tchau", "ate logo", "até logo", "falou", "flw", "adeus", "bye", "até mais"]]),
   ("gratitude", [.containsAny ["obrigado", "obrigada", "valeu", "vlw", "thanks", "agradeço"]]),
   ("question", [.startsAny ["qual", "como", "quando", "onde", "por que", "porque", "quem", "quanto"],
                 .endsWithQuestionMark]),
   ("complaint", [.containsAny ["problema", "erro", "bug", "falha", "não funciona", "nao funciona", "reclamação"]]),
   ("praise", [.containsAny ["parabéns", "parabens", "excelente", "ótimo", "otimo", "perfeito", "maravilhoso", "amei"]]),
   ("help", [.containsAny ["ajuda", "socorro", "help", "duvida", "dúvida", "como faço", "como faco"]]),
   ("purchase", [.containsAny ["comprar", "adquirir", "contratar", "quero", "preciso", "gostaria de", "preço", "preco", "valor"]]),
   ("support", [.containsAny ["suporte", "atendimento", "falar com", "preciso de ajuda"]]),
   ("cancel", [.containsAny ["cancelar", "desistir", "não quero", "nao quero", "encerrar"]]),
   ("confirm", [.startsAny ["sim", "yes", "claro", "com certeza", "pode ser", "ok", "okay", "certo"]]),
   ("deny", [.startsAny ["não", "nao", "no", "negativo", "nunca", "jamais"]])]

/-- `AdvancedAIBrain.detectIntent`: first pattern-table match in order;
otherwise the Bayes classifier's output when it yields a truthy label;
otherwise `unknown` (a thrown or falsy classification is `none`/empty). -/
def detectIntent (env : Env) (text : String) : String :=
  match intentPatterns.find? (fun p => p.2.any (fun pat => pat.test text)) with
  | some p => p.1
  | none =>
    match env.bayesClassify text with
    | some c => if c = "" then "unknown" else c
    | none => "unknown"

/-- `extractIntentFromResponse`: derives a coarse intent label from a
training example's output text (total; falls back to `general`). -/
def extractIntentFromResponse (response : String) : String :=
  if containsAnyCI response ["saudação", "olá", "bem-vindo"] then "greeting"
  else if containsAnyCI response ["pagamento", "boleto", "pix"] then "payment"
  else if containsAnyCI response ["suporte", "ajuda"] then "support"
  else "general"

/-- Order-preserving dedup keeping first occurrences (JS object key
insertion order). -/
def firstDedup [DecidableEq α] : List α → List α
  | [] => []
  | a :: as => a :: (firstDedup as).filter (fun b => b ≠ a)

/-- `extractKeywords`: tokenize, stem, drop stopwords, count frequencies
(keys in first-occurrence order), sort descending by count (stable, like
`Array.prototype.sort`), take the top 5. -/
def extractKeywords (env : Env) (text : String) : List String :=
  let stemmed := (tokenize text).map env.stem
  let stopwords := ["o", "a", "de", "da", "do", "e", "para", "com", "em", "que"]
  let filtered := stemmed.filter (fun w => !stopwords.contains w)
  let pairs := (firstDedup filtered).map (fun w => (w, filtered.count w))
  ((stableSort (fun x y : String × Nat => y.2 < x.2) pairs).take 5).map (fun p => p.1)

/-- `getConversationContext`. -/
def getConversationContext (st : State) (phone : String) : List ContextEntry :=
  (st.conversationContext.lookup phone).getD []

/-- `updateConversationContext`: append the entry to the identity's ring
and drop the oldest entry past `maxContextSize`; a falsy phone is a
no-op. -/
def updateConversationContext (st : State) (phone : Option String) (entry : ContextEntry) : State :=
  match phone with
  | none => st
  | some p =>
    let context := (st.conversationContext.lookup p).getD [] ++ [entry]
    let context := if st.config.maxContextSize < context.length then context.tail else context
    { st with conversationContext := mapSet st.conversationContext p context }

/-- `getCachedResponse`: a missing key is a miss; an entry whose age
exceeds `cacheTTL` is deleted and is a miss; otherwise the stored result
is returned. -/
def getCachedResponse (ttl : Nat) (cache : List (String × CacheEntry)) (msg : String) (now : Nat) :
    Option Result × List (String × CacheEntry) :=
  match cache.lookup msg with
  | none => (none, cache)
  | some e =>
    if ttl < now - e.timestamp then (none, cache.filter (fun p => p.1 ≠ msg))
    else (some e.response, cache)

/-- `cacheResponse`: evict the oldest-inserted entry on overflow, then
store the result under the message key with the current timestamp. -/
def cacheResponse (maxSize : Nat) (cache : List (String × CacheEntry)) (msg : String)
    (result : Result) (now : Nat) : List (String × CacheEntry) :=
  let cache1 := if maxSize ≤ cache.length then cache.tail else cache
  mapSet cache1 msg ⟨result, now⟩

/-- The conversation-context boost of `findBestResponse` (algorithm 4):
when the identity has a non-empty context and the *query's* detected
intent appears among the last 3 recorded intents, every candidate's
confidence is raised by the context weight. -/
def applyContextBoost (st : State) (phone : Option String) (intent : String)
    (cs : List Candidate) : List Candidate :=
  match phone with
  | none => cs
  | some p =>
    let context := getConversationContext st p
    if context.isEmpty then cs
    else
      let recentIntents := (context.drop (context.length - 3)).map (fun c => c.intent)
      cs.map (fun c =>
        if recentIntents.contains intent then { c with confidence := c.confidence + wContext }
        else c)

/-- Group candidates by output text (first-occurrence key order), summing
confidences and collecting algorithm tags. -/
def addCand : List Group → Candidate → List Group
  | [], c => [⟨c.text, c.confidence, [c.algorithm]⟩]
  | g :: gs, c =>
    if g.text = c.text then
      { g with confidence := g.confidence + c.confidence,
               algorithms := g.algorithms ++ [c.algorithm] } :: gs
    else g :: addCand gs c

/-- The grouping step of `findBestResponse`. -/
def groupByText (cs : List Candidate) : List Group :=
  cs.foldl addCand []

/-- Specification-side aggregate: the summed confidence contributions of
all candidates carrying a given output text. -/
def textConfidenceSum (cs : List Candidate) (t : String) : ℚ :=
  ((cs.filter (fun c => c.text = t)).map (fun c => c.confidence)).sum

/-- Specification-side aggregate over groups, used to relate `groupByText`
to `textConfidenceSum`. -/
def groupConfidenceSum (gs : List Group) (t : String) : ℚ :=
  ((gs.filter (fun g => g.text = t)).map (fun g => g.confidence)).sum

/-- The selection step of `findBestResponse`: sort the groups by summed
confidence (descending, stable), take the first, clamp its confidence to
`1.0` and join its algorithm tags. -/
def fuseCandidates (cs : List Candidate) : BestResp :=
  let grouped := groupByText cs
  let best := (sortDescBy (fun g : Group => g.confidence) grouped).headD ⟨"", 0, []⟩
  { text := best.text, confidence := min best.confidence 1,
    algorithm := String.intercalate "+" best.algorithms }

/-- `AdvancedAIBrain.findBestResponse`: fallback replies for an empty
corpus or an empty candidate set; otherwise TF-IDF (top 5), thresholded
normalized Levenshtein and Jaro-Winkler candidates, the context boost,
fusion, and a usage-count bump for the first candidate's training row
when the winner clears `minConfidence`.  A `0/0` in the Levenshtein
normalisation is JS `NaN`, whose comparison is false, so that row yields
no candidate. -/
def findBestResponse (env : Env) (st : State) (processed : String) (uctx : UserCtx)
    (intent : String) : BestResp × State :=
  if st.trainingData.isEmpty then
    ({ text := "Ainda estou aprendendo. Em breve poderei ajudar melhor!",
       confidence := 0.3, algorithm := "fallback" }, st)
  else
    let tfidfScores := (List.range st.trainingData.length).map
      (fun i => (i, env.tfidfMeasure processed i))
    let topTfidf := (sortDescBy (fun x : Nat × ℚ => x.2) tfidfScores).take 5
    let cands1 := topTfidf.filterMap (fun x =>
      (st.trainingData.get? x.1).map (fun data =>
        ({ text := data.output, confidence := x.2 * wTfidf,
           algorithm := "tfidf", trainingId := some data.id } : Candidate)))
    let cands2 := st.trainingData.filterMap (fun data =>
      let maxLen := max processed.length data.input.length
      if maxLen = 0 then none
      else
        let sim : ℚ := 1 - (levenshtein processed (preprocessText data.input) : ℚ) / (maxLen : ℚ)
        if (0.5 : ℚ) < sim then
          some ({ text := data.output, confidence := sim * wLevenshtein,
                  algorithm := "levenshtein", trainingId := some data.id } : Candidate)
        else none)
    let cands3 := st.trainingData.filterMap (fun data =>
      let sim := env.jaroWinkler processed (preprocessText data.input)
      if (0.7 : ℚ) < sim then
        some ({ text := data.output, confidence := sim * wJaroWinkler,
                algorithm := "jarowinkler", trainingId := some data.id } : Candidate)
      else none)
    let candidates := applyContextBoost st uctx.phone intent (cands1 ++ cands2 ++ cands3)
    if candidates.isEmpty then
      ({ text := "Não tenho certeza sobre isso. Você pode reformular sua pergunta?",
         confidence := 0.2, algorithm := "none" }, st)
    else
      let best := fuseCandidates candidates
      let st' :=
        if st.config.minConfidence ≤ best.confidence then
          match candidates.head? with
          | some c =>
            match c.trainingId with
            | some id => { st with db := updateTrainingUsage st.db id }
            | none => st
          | none => st
        else st
      (best, st')

/-- `AdvancedAIBrain.learn`: persists the raw pair (v2 does no duplicate
check) with confidence `1.0`/`0.8`; the `approved ? 1 : 0` argument is
dropped by the three-parameter `saveTrainingData`, so the stored row
keeps `approved = 0`; the corpus is then reloaded (the external TF-IDF
and Bayes indices are abstracted into the fixed environment). -/
def learn (st : State) (input output : String) (approved : Bool) : Bool × State :=
  let confidence : ℚ := if approved then 1.0 else 0.8
  let db' := saveTrainingData st.db input output confidence
  let trainingData' := (getTrainingData db').filter (fun e => e.approved = 1)
  (true, { st with db := db', trainingData := trainingData' })

/-- `learnFromInteraction`: auto-learn as unapproved on high confidence
when learning is enabled. -/
def learnFromInteraction (st : State) (input output : String) (confidence : ℚ) : State :=
  if (0.85 : ℚ) ≤ confidence && st.config.learningEnabled then (learn st input output false).2
  else st

/-- `updateStats`. -/
def updateStats (st : State) (result : Result) : State :=
  let n := st.stats.totalProcessed
  { st with stats :=
    { st.stats with
      totalProcessed := n + 1,
      averageConfidence := (st.stats.averageConfidence * n + result.confidence) / (n + 1),
      intentDistribution := mapBump st.stats.intentDistribution result.intent,
      sentimentDistribution := mapBump st.stats.sentimentDistribution result.sentiment.label } }

/-- `getErrorResponse`: the fixed apology result with confidence `0` and
`needsHumanHandoff = true`. -/
def getErrorResponse (errMsg : String) : Result :=
  { response := "Desculpe, tive um problema ao processar sua mensagem. Nossa equipe foi notificada.",
    confidence := 0,
    sentiment := { score := 0, comparative := 0, label := "neutral", emotions := [] },
    intent := "error", entities := [], keywords := [],
    needsHumanHandoff := true, algorithm := none, error := some errMsg }

/-- The outcome of one `processMessage` call: the returned result, the
updated brain state, and the ghost instrumentation flag recording whether
the scoring pipeline (`findBestResponse`) was executed for this call. -/
structure Outcome where
  result : Result
  state : State
  invokedScoring : Bool
deriving DecidableEq

/-- The body of `processMessage` past the cache check: analyses, context
update, multi-algorithm scoring, result assembly, conditional caching
(publish threshold `0.8`), statistics, and conditional auto-learning. -/
def processCore (env : Env) (st : State) (clean : String) (uctx : UserCtx) (now : Nat) : Outcome :=
  let processed := preprocessText clean
  let sent := analyzeSentiment env clean
  let ents := extractEntities env clean
  let intent := detectIntent env processed
  let keywords := extractKeywords env processed
  let st1 := updateConversationContext st uctx.phone
    { message := clean, intent := intent, sentiment := sent.label, timestamp := now }
  let scored := findBestResponse env st1 processed uctx intent
  let resp := scored.1
  let result : Result :=
    { response := resp.text, confidence := resp.confidence, sentiment := sent,
      intent := intent, entities := ents, keywords := keywords,
      needsHumanHandoff := resp.confidence < st.config.minConfidence,
      algorithm := some resp.algorithm }
  let st3 :=
    if st.config.cacheEnabled && (0.8 : ℚ) ≤ resp.confidence then
      { scored.2 with responseCache :=
          cacheResponse st.config.cacheMaxSize scored.2.responseCache clean result now }
    else scored.2
  let st4 := updateStats st3 result
  let st5 :=
    if st.config.learningEnabled && (0.85 : ℚ) ≤ resp.confidence then
      learnFromInteraction st4 clean resp.text resp.confidence
    else st4
  ⟨result, st5, true⟩

/-- `AdvancedAIBrain.processMessage`: sanitize (an empty sanitized input
throws and is caught into `getErrorResponse`), probe the cache, and on a
miss run the scoring pipeline.  The function is total: every input maps
to a `Result`. -/
def processMessage (env : Env) (st : State) (v : JSVal) (uctx : UserCtx) (now : Nat) : Outcome :=
  let clean := sanitizeInput v
  if clean = "" then ⟨getErrorResponse "Empty message after sanitization", st, false⟩
  else if st.config.cacheEnabled then
    match getCachedResponse st.config.cacheTTL st.responseCache clean now with
    | (some r, cache') =>
      let stPerCache := { st with responseCache := cache' }
      let hitState :=
        { stPerCache with stats := { st.stats with cacheHits := st.stats.cacheHits + 1 } }
      ⟨r, hitState, false⟩
    | (none, cache') => processCore env { st with responseCache := cache' } clean uctx now
  else processCore env st clean uctx now

end AdvancedAIBrain

/-! ## The Flow State Machine (`modules/flow-engine.js`) -/

namespace FlowEngine

/-- One option of a `menu` / `quick_reply` step. -/
structure FlowOption where
  id : String
  label : String := ""
  action : String := ""
  target : String := ""
  next : Option String := none
deriving DecidableEq

/-- A configured department (ids are modelled as strings). -/
structure Department where
  id : String
  transfer_message : String
deriving DecidableEq

/-- One flow step; `type` selects the variant and the remaining fields
are the type-specific configuration, with `Option`/default values for
fields a step's JSON may omit. -/
structure Step where
  id : String
  type : String
  message : String := ""
  options : List FlowOption := []
  next : Option String := none
  delay : Nat := 0
  max_retries : Option Nat := none
  retry_message : Option String := none
  field : String := ""
  validation : String := ""
  save_to : Option String := none
  fallback : Option String := none
  confidence_threshold : ℚ := 0
  action : String := ""
  department_id : String := ""
  context_message : Option String := none
  priority : Option String := none
  notify_human : Bool := false
  success_message : Option String := none
  if_true : Option String := none
  if_false : Option String := none
  condition : String := ""
deriving DecidableEq

/-- A flow: its ordered steps. -/
structure Flow where
  steps : List Step
deriving DecidableEq

/-- The `config.fallback` block driving `handleMaxRetriesExceeded`. -/
structure FallbackConfig where
  transfer_after_limit : Bool
  transfer_message : String
deriving DecidableEq

/-- The engine configuration: mode, the two mode flow ids, the flow
table, departments, the fallback block and the AI switch. -/
structure Config where
  mode : String
  atendimentoFlowId : String
  triagemFlowId : String
  flows : List (String × Flow)
  departments : List Department
  fallback : FallbackConfig
  aiEnabled : Bool
deriving DecidableEq

/-- One entry of a `UserFlowState`'s append-only history. -/
structure HistoryEntry where
  stepId : String
  type : String
  input : String
  timestamp : Nat
deriving DecidableEq

/-- The per-identity `UserFlowState` (`userStates` map values). -/
structure UserState where
  phone : String
  currentFlow : String
  currentStep : Nat
  stepId : String
  data : List (String × JSVal)
  context : List (String × JSVal)
  retryCount : Nat
  history : List HistoryEntry
  startedAt : Nat
  waitingInput : Bool := false
  expectedInput : Option String := none
  menuOptions : List FlowOption := []
  quickReplyOptions : List FlowOption := []
  validationType : Option String := none
  previousFlow : Option String := none
deriving DecidableEq

/-- The result object a flow handler returns (absent JS fields are the
defaults here; `cont` models the source's `continue` flag). -/
structure FlowResult where
  message : Option String := none
  delay : Nat := 0
  action : Option String := none
  error : Bool := false
  waitingInput : Bool := false
  cont : Bool := false
  restart : Bool := false
  transferComplete : Bool := false
  departmentId : Option String := none
  priority : Option String := none
  flowChanged : Bool := false
  confidence : Option ℚ := none
  fromAI : Bool := false
deriving DecidableEq

/-- The engine's mutable state: the per-user state map (insertion
ordered). -/
structure EngineState where
  userStates : List (String × UserState)
deriving DecidableEq

/-- The response the flow engine's `ai_response` step reads back from the
brain collaborator. -/
structure AIResponse where
  response : String
  confidence : ℚ
deriving DecidableEq

/-- The flow engine's external collaborator: the AI brain's
`processMessage`, reduced to the two fields `handleAIResponseStep`
reads. -/
structure Env where
  aiRespond : String → AIResponse

/-- `updateUserState` / the reference-visibility of in-place mutations of
a `userStates` entry. -/
def setUser (est : EngineState) (phone : String) (u : UserState) : EngineState :=
  ⟨mapSet est.userStates phone u⟩

/-- `resetUserFlow`: delete the identity's state. -/
def resetUserFlow (est : EngineState) (phone : String) : EngineState :=
  ⟨est.userStates.filter (fun p => p.1 ≠ phone)⟩

/-! ### Validators (`setupValidators` / `validateInput`) -/

/-- The result a validator returns (`value` is absent on failure; the
default stands in for JS `undefined`). -/
structure ValidationResult where
  valid : Bool
  value : JSVal := .str ""
  error : Option String := none
deriving DecidableEq

/-- The `text` validator. -/
def validatorText (value : String) : ValidationResult :=
  if (jsTrim value).length < 2 then
    { valid := false, error := some "Por favor, digite um texto válido." }
  else { valid := true, value := .str (jsTrim value) }

/-- The email regex `/^[^\s@]+@[^\s@]+\.[^\s@]+$/`: no whitespace, exactly
one `@` with a non-empty local part, and after it a dot that is neither
the first nor the last remaining character. -/
def emailRegexTest (s : String) : Bool :=
  let cs := s.data
  cs.all (fun c => !(isJsSpace c)) && cs.count '@' = 1 &&
    (match cs.findIdx? (fun c => c = '@') with
     | none => false
     | some i =>
       let m := cs.drop (i + 1)
       0 < i && (List.range m.length).any (fun j => m.getD j ' ' = '.' && 0 < j && j + 1 < m.length))

/-- The `email` validator. -/
def validatorEmail (value : String) : ValidationResult :=
  if !emailRegexTest value then
    { valid := false, error := some "E-mail inválido. Exemplo: seu@email.com" }
  else { valid := true, value := .str (jsTrim (jsToLower value)) }

/-- The `phone` validator: full-match `/^[\d\s\(\)\-\+]{10,15}$/` and at
least 10 digits; the stored value keeps the digits only. -/
def validatorPhone (value : String) : ValidationResult :=
  let regexOk := 10 ≤ value.length && value.length ≤ 15 &&
    value.data.all (fun c => c.isDigit || isJsSpace c || c = '(' || c = ')' || c = '-' || c = '+')
  let cleaned := value.data.filter Char.isDigit
  if !regexOk || cleaned.length < 10 then
    { valid := false, error := some "Telefone inválido. Digite DDD + número." }
  else { valid := true, value := .str (String.mk cleaned) }

/-- `validateCPF`: the two-check-digit CPF checksum over 11 digits,
rejecting the all-equal sequences. -/
def validateCPF (ds : List Nat) : Bool :=
  ds.length = 11 &&
  !(match ds with | [] => true | d :: rest => rest.all (fun x => x = d)) &&
  (let sum1 := ((ds.take 9).zipWith (fun d w => d * w) [10, 9, 8, 7, 6, 5, 4, 3, 2]).sum
   let digit1 := if 10 ≤ 11 - sum1 % 11 then 0 else 11 - sum1 % 11
   let sum2 := ((ds.take 10).zipWith (fun d w => d * w) [11, 10, 9, 8, 7, 6, 5, 4, 3, 2]).sum
   let digit2 := if 10 ≤ 11 - sum2 % 11 then 0 else 11 - sum2 % 11
   digit1 = ds.getD 9 0 && digit2 = ds.getD 10 0)

/-- The cyclic weight sequence of the CNPJ checksum loop (`pos--`, reset
to `9` below `2`). -/
def cnpjWeights : Nat → Nat → List Nat
  | 0, _ => []
  | n + 1, pos => pos :: cnpjWeights n (if pos - 1 < 2 then 9 else pos - 1)

/-- `validateCNPJ`: the two-check-digit CNPJ checksum over 14 digits. -/
def validateCNPJ (ds : List Nat) : Bool :=
  ds.length = 14 &&
  !(match ds with | [] => true | d :: rest => rest.all (fun x => x = d)) &&
  (let sum1 := ((ds.take 12).zipWith (fun d w => d * w) (cnpjWeights 12 5)).sum
   let r1 := if sum1 % 11 < 2 then 0 else 11 - sum1 % 11
   let sum2 := ((ds.take 13).zipWith (fun d w => d * w) (cnpjWeights 13 6)).sum
   let r2 := if sum2 % 11 < 2 then 0 else 11 - sum2 % 11
   r1 = ds.getD 12 0 && r2 = ds.getD 13 0)

/-- The digits of a string, as numbers (`value.replace(/\D/g, '')`). -/
def digitsOf (value : String) : List Nat :=
  (value.data.filter Char.isDigit).map digitVal

/-- The `cpf` validator. -/
def validatorCpf (value : String) : ValidationResult :=
  let ds := digitsOf value
  if ds.length ≠ 11 || !validateCPF ds then
    { valid := false, error := some "CPF inválido." }
  else { valid := true, value := .str (String.mk (value.data.filter Char.isDigit)) }

/-- The `cnpj` validator. -/
def validatorCnpj (value : String) : ValidationResult :=
  let ds := digitsOf value
  if ds.length ≠ 14 || !validateCNPJ ds then
    { valid := false, error := some "CNPJ inválido." }
  else { valid := true, value := .str (String.mk (value.data.filter Char.isDigit)) }

/-- The `cpf_cnpj` validator: dispatch on digit count. -/
def validatorCpfCnpj (value : String) : ValidationResult :=
  let ds := digitsOf value
  if ds.length = 11 then validatorCpf value
  else if ds.length = 14 then validatorCnpj value
  else { valid := false, error := some "CPF/CNPJ inválido." }

/-- The `number` validator: `parseFloat`, rejecting `NaN`. -/
def validatorNumber (value : String) : ValidationResult :=
  match jsParseFloat value with
  | none => { valid := false, error := some "Digite apenas números." }
  | some q => { valid := true, value := .num q }

/-- The `option` validator: always accepts the trimmed value. -/
def validatorOption (value : String) : ValidationResult :=
  { valid := true, value := .str (jsTrim value) }

/-- `validateInput`: dispatch on the validator name; an unknown
validation type logs a warning and accepts the raw value unchanged. -/
def validateInput (value : String) (validationType : String) : ValidationResult :=
  if validationType = "text" then validatorText value
  else if validationType = "email" then validatorEmail value
  else if validationType = "phone" then validatorPhone value
  else if validationType = "cpf" then validatorCpf value
  else if validationType = "cnpj" then validatorCnpj value
  else if validationType = "cpf_cnpj" then validatorCpfCnpj value
  else if validationType = "number" then validatorNumber value
  else if validationType = "option" then validatorOption value
  else { valid := true, value := .str value }

/-! ### Variable substitution and conditions -/

/-- The `{` character (kept out of string literals). -/
def braceOpen : Char := Char.ofNat 123

/-- The `}` character. -/
def braceClose : Char := Char.ofNat 125

/-- Resolution of one `{key}` token: the user context wins when its value
is truthy, then the flow-local data, else the token stays verbatim
(`none`). -/
def resolveVar (uctx data : List (String × JSVal)) (key : String) : Option String :=
  match uctx.lookup key with
  | some v =>
    if jsTruthy v then some (jsValToString v)
    else
      match data.lookup key with
      | some w => if jsTruthy w then some (jsValToString w) else none
      | none => none
  | none =>
    match data.lookup key with
    | some w => if jsTruthy w then some (jsValToString w) else none
    | none => none

/-- Scanner for `text.replace(/\{(\w+)\}/g, …)`: the buffer carries the
word characters seen since an opening brace; an unresolvable or malformed
token is kept verbatim. -/
def replaceVarsGo (uctx data : List (String × JSVal)) : List Char → Option (List Char) → List Char
  | [], none => []
  | [], some buf => braceOpen :: buf.reverse
  | c :: rest, none =>
    if c = braceOpen then replaceVarsGo uctx data rest (some [])
    else c :: replaceVarsGo uctx data rest none
  | c :: rest, some buf =>
    if c = braceClose then
      (if buf.isEmpty then braceOpen :: braceClose :: replaceVarsGo uctx data rest none
       else
         match resolveVar uctx data (String.mk buf.reverse) with
         | some s => s.data ++ replaceVarsGo uctx data rest none
         | none => braceOpen :: buf.reverse ++ braceClose :: replaceVarsGo uctx data rest none)
    else if isWordChar c then replaceVarsGo uctx data rest (some (c :: buf))
    else
      braceOpen :: buf.reverse ++
        (if c = braceOpen then replaceVarsGo uctx data rest (some [])
         else c :: replaceVarsGo uctx data rest none)

/-- `replaceVariables`. -/
def replaceVariables (text : String) (ust : UserState) (uctx : List (String × JSVal)) : String :=
  String.mk (replaceVarsGo uctx ust.data text.data none)

/-- `evaluateCondition`: parse `path.field operator value`, look the
target up in the user context or flow data, and apply
`exists`/`equals`/`contains`; every failure mode (unknown operator, a
non-string target for `contains`, a falsy target) yields `false`, as the
source's `try/catch` does. -/
def evaluateCondition (condition : String) (ust : UserState) (uctx : List (String × JSVal)) : Bool :=
  let parts := condition.splitOn " "
  let path := (parts.getD 0 "").splitOn "."
  let operator := parts.getD 1 ""
  let value := String.intercalate " " (parts.drop 2)
  let target : Option JSVal :=
    if path.getD 0 "" = "user_context" then uctx.lookup (path.getD 1 "")
    else if path.getD 0 "" = "data" then ust.data.lookup (path.getD 1 "")
    else none
  if operator = "exists" then (target.map jsTruthy).getD false
  else if operator = "equals" then
    (match target with | some (.str s) => s = value | _ => false)
  else if operator = "contains" then
    (match target with
     | some (.str s) => jsTruthy (.str s) && jsIncludes s value
     | _ => false)
  else false

/-! ### Navigation -/

/-- `initializeUserFlow`: a missing flow returns `null` (modelled `none`);
an empty step list would fault on `flow.steps[0].id` (modelled as a
thrown `Except.error`); otherwise the fresh state is stored. -/
def initializeUserFlow (cfg : Config) (phone flowId : String) (uctx : List (String × JSVal))
    (now : Nat) (est : EngineState) : Except Unit (Option UserState × EngineState) :=
  match cfg.flows.lookup flowId with
  | none => .ok (none, est)
  | some flow =>
    match flow.steps.head? with
    | none => .error ()
    | some s0 =>
      let u : UserState :=
        { phone := phone, currentFlow := flowId, currentStep := 0, stepId := s0.id,
          data := [], context := uctx, retryCount := 0, history := [], startedAt := now }
      .ok (some u, setUser est phone u)

/-- `moveToNextStep`: look the target id up in the current flow; a
missing target logs and leaves the state untouched. -/
def moveToNextStep (cfg : Config) (phone : String) (ust : UserState) (nextStepId : String)
    (est : EngineState) : Except Unit (UserState × EngineState) :=
  match cfg.flows.lookup ust.currentFlow with
  | none => .error ()
  | some flow =>
    match flow.steps.findIdx? (fun s => s.id = nextStepId) with
    | none => .ok (ust, est)
    | some idx =>
      let u := { ust with currentStep := idx, stepId := nextStepId }
      .ok (u, setUser est phone u)

/-- `getDepartmentTransferMessage`. -/
def getDepartmentTransferMessage (cfg : Config) (deptId : String) : String :=
  match cfg.departments.find? (fun d => d.id = deptId) with
  | some d => d.transfer_message
  | none => "Transferindo..."

/-- `handleMaxRetriesExceeded`: when `fallback.transfer_after_limit` is
set, return the transfer-to-human result (the user state stays in the
map); otherwise delete the user state and signal a restart. -/
def handleMaxRetriesExceeded (cfg : Config) (phone : String) (est : EngineState) :
    FlowResult × EngineState :=
  if cfg.fallback.transfer_after_limit then
    ({ message := some cfg.fallback.transfer_message, action := some "transfer_human",
       transferComplete := true }, est)
  else
    ({ message := some "Vamos recomeçar do início.", restart := true }, resetUserFlow est phone)

/-- `gotoFlow`: a missing target flow yields an error result; otherwise
the current state is deleted and the target flow initialized. -/
def gotoFlow (cfg : Config) (phone flowId : String) (ust : UserState)
    (uctx : List (String × JSVal)) (now : Nat) (est : EngineState) :
    Except Unit (FlowResult × EngineState) :=
  match cfg.flows.lookup flowId with
  | none => .ok ({ message := some "Erro ao trocar fluxo.", error := true }, setUser est phone ust)
  | some _ => do
    let est1 := resetUserFlow est phone
    let init ← initializeUserFlow cfg phone flowId uctx now est1
    pure ({ message := some "🔄 Redirecionando...", flowChanged := true, cont := true }, init.2)

/-! ### Step handlers -/

/-- `handleMessageStep`. -/
def handleMessageStep (cfg : Config) (phone : String) (step : Step) (ust : UserState)
    (uctx : List (String × JSVal)) (est : EngineState) :
    Except Unit (FlowResult × EngineState) := do
  let message := replaceVariables step.message ust uctx
  let est2 ←
    match step.next with
    | some n => do
      let moved ← moveToNextStep cfg phone ust n est
      pure moved.2
    | none => pure est
  pure ({ message := some message, delay := step.delay, cont := step.next.isSome }, est2)

/-- `handleMenuStep`: first visit renders the menu; afterwards the
trimmed reply must equal an option id exactly, otherwise the retry
counter is bumped with the max-retries fallback at the limit; a valid
option resets the counter and dispatches its action. -/
def handleMenuStep (cfg : Config) (phone msg : String) (step : Step) (ust : UserState)
    (uctx : List (String × JSVal)) (now : Nat) (est : EngineState) :
    Except Unit (FlowResult × EngineState) := do
  if !ust.waitingInput then
    let menuMessage := replaceVariables step.message ust uctx
    let u := { ust with waitingInput := true, expectedInput := some "menu_option",
                        menuOptions := step.options }
    pure ({ message := some menuMessage, waitingInput := true }, setUser est phone u)
  else
    let sanitized := jsTrim msg
    match step.options.find? (fun opt => opt.id = sanitized) with
    | none =>
      let u := { ust with retryCount := ust.retryCount + 1 }
      let est1 := setUser est phone u
      if step.max_retries.getD 3 ≤ u.retryCount then
        pure (handleMaxRetriesExceeded cfg phone est1)
      else
        pure ({ message := some (step.retry_message.getD "Opção inválida. Tente novamente."),
                waitingInput := true }, est1)
    | some opt =>
      let u := { ust with retryCount := 0, waitingInput := false,
                          data := mapSet ust.data "lastMenuChoice" (.str opt.id) }
      let est1 := setUser est phone u
      if opt.action = "goto" then gotoFlow cfg phone opt.target u uctx now est1
      else if opt.action = "transfer_human" then
        pure ({ message := some "🤝 Conectando você com um atendente humano...",
                action := some "transfer_human", transferComplete := true }, est1)
      else if opt.action = "transfer_department" then
        pure ({ message := some (getDepartmentTransferMessage cfg opt.target),
                action := some "transfer_department", departmentId := some opt.target,
                transferComplete := true }, est1)
      else pure ({ message := some "Erro no menu.", error := true }, est1)

/-- `handleCaptureDataStep`: first visit asks the question; afterwards the
named validator runs with the same retry/fallback policy as `menu` (the
limit hard-coded to 3); a valid value is stored under the step's field
and the flow advances.  The `save_to` write-through into the external
user-context store is a persistence-gateway effect outside this model. -/
def handleCaptureDataStep (cfg : Config) (phone msg : String) (step : Step) (ust : UserState)
    (uctx : List (String × JSVal)) (est : EngineState) :
    Except Unit (FlowResult × EngineState) := do
  if !ust.waitingInput then
    let question := replaceVariables step.message ust uctx
    let u := { ust with waitingInput := true, expectedInput := some step.field,
                        validationType := some step.validation }
    pure ({ message := some question, waitingInput := true }, setUser est phone u)
  else
    let validation := validateInput msg step.validation
    if !validation.valid then
      let u := { ust with retryCount := ust.retryCount + 1 }
      let est1 := setUser est phone u
      if 3 ≤ u.retryCount then pure (handleMaxRetriesExceeded cfg phone est1)
      else
        pure ({ message := some ("❌ " ++ validation.error.getD "undefined" ++ "\n\n" ++ step.message),
                waitingInput := true }, est1)
    else
      let u1 := { ust with data := mapSet ust.data step.field validation.value }
      let u2 := { u1 with waitingInput := false, retryCount := 0 }
      let est1 := setUser est phone u2
      let est2 ←
        match step.next with
        | some n => do
          let moved ← moveToNextStep cfg phone u2 n est1
          pure moved.2
        | none => pure est1
      pure ({ message := some "✅ Perfeito!", delay := 500, cont := step.next.isSome }, est2)

/-- `handleQuickReplyStep`: first visit lists the options; afterwards the
lowercased, trimmed reply is accepted when it equals an option id
(case-insensitively) or is a substring of an option label
(case-insensitively); a non-match re-prompts without touching the retry
counter; the `main_flow` target resets the state and signals restart. -/
def handleQuickReplyStep (cfg : Config) (phone msg : String) (step : Step) (ust : UserState)
    (uctx : List (String × JSVal)) (est : EngineState) :
    Except Unit (FlowResult × EngineState) := do
  if !ust.waitingInput then
    let m := replaceVariables step.message ust uctx
    let optionsText := String.intercalate "\n" (step.options.map (fun opt => "• " ++ opt.label))
    let u := { ust with waitingInput := true, quickReplyOptions := step.options }
    pure ({ message := some (m ++ "\n\n" ++ optionsText), waitingInput := true },
          setUser est phone u)
  else
    let sanitized := jsTrim (jsToLower msg)
    match step.options.find? (fun opt =>
        jsToLower opt.id = sanitized || jsIncludes (jsToLower opt.label) sanitized) with
    | none =>
      pure ({ message := some "❌ Resposta inválida. Escolha uma das opções acima.",
              waitingInput := true }, est)
    | some opt =>
      let u := { ust with waitingInput := false,
                          data := mapSet ust.data "quickReply" (.str opt.id) }
      let est1 := setUser est phone u
      match opt.next with
      | some n =>
        if n = "main_flow" then
          pure ({ message := some "🔄 Voltando ao menu principal...", restart := true },
                resetUserFlow est1 phone)
        else do
          let moved ← moveToNextStep cfg phone u n est1
          pure ({ message := some "✅ Entendido!", cont := true }, moved.2)
      | none => pure ({ message := some "✅ Entendido!", cont := false }, est1)

/-- `handleAIResponseStep`: with AI disabled skip to the fallback branch;
otherwise delegate to the brain and use its reply when its confidence
clears the step's threshold, else fall back or transfer. -/
def handleAIResponseStep (env : Env) (cfg : Config) (phone msg : String) (step : Step)
    (ust : UserState) (uctx : List (String × JSVal)) (est : EngineState) :
    Except Unit (FlowResult × EngineState) := do
  if !cfg.aiEnabled then
    match step.fallback with
    | some f => do
      let moved ← moveToNextStep cfg phone ust f est
      pure ({ cont := true }, moved.2)
    | none => pure ({ message := some "IA não disponível no momento." }, est)
  else
    let ai := env.aiRespond msg
    if step.confidence_threshold ≤ ai.confidence then
      let u := { ust with data := mapSet ust.data "aiResponse" (.str ai.response) }
      pure ({ message := some ai.response, confidence := some ai.confidence, fromAI := true },
            setUser est phone u)
    else
      match step.fallback with
      | some f => do
        let moved ← moveToNextStep cfg phone ust f est
        pure ({ message := some "Deixa eu te conectar com alguém que pode te ajudar melhor!",
                cont := true }, moved.2)
      | none =>
        pure ({ message := some "Não tenho certeza sobre isso. Vou te transferir para um especialista!",
                action := some "transfer_human" }, est)

/-- `handleActionStep`: the four known actions; an unknown action name
yields a bare error result.  In the `transfer_department` case a missing
department only faults (`TypeError`, modelled as a thrown error) when no
`context_message` overrides its transfer message. -/
def handleActionStep (cfg : Config) (phone : String) (step : Step) (ust : UserState)
    (uctx : List (String × JSVal)) (est : EngineState) :
    Except Unit (FlowResult × EngineState) := do
  if step.action = "transfer_department" then do
    let baseMsg ←
      match step.context_message with
      | some m => pure m
      | none =>
        match cfg.departments.find? (fun d => d.id = step.department_id) with
        | some d => pure d.transfer_message
        | none => throw ()
    let m := replaceVariables baseMsg ust uctx
    pure ({ message := some m, action := some "transfer_department",
            departmentId := some step.department_id,
            priority := some (step.priority.getD "normal"), transferComplete := true }, est)
  else if step.action = "transfer_human" then
    pure ({ message := some "🤝 Conectando você com um atendente...",
            action := some "transfer_human", transferComplete := true }, est)
  else if step.action = "generate_boleto" then
    pure ({ message := some (step.success_message.getD "Boleto gerado com sucesso!"),
            action := some "boleto_generated", cont := step.next.isSome }, est)
  else if step.action = "send_email" then
    pure ({ message := some "E-mail enviado com sucesso!", cont := step.next.isSome }, est)
  else pure ({ message := some "Ação não implementada.", error := true }, est)

/-- `handleConditionStep`. -/
def handleConditionStep (cfg : Config) (phone msg : String) (step : Step) (ust : UserState)
    (uctx : List (String × JSVal)) (est : EngineState) :
    Except Unit (FlowResult × EngineState) := do
  if evaluateCondition step.condition ust uctx then
    match step.if_true with
    | some t => do
      let moved ← moveToNextStep cfg phone ust t est
      pure ({ cont := true }, moved.2)
    | none => pure ({ message := some "Erro na condição." }, est)
  else
    match step.if_false with
    | some f => do
      let moved ← moveToNextStep cfg phone ust f est
      pure ({ cont := true }, moved.2)
    | none => pure ({ message := some "Erro na condição." }, est)

/-- `processStep`: record the history entry (visible in the map, since
the JS state object is mutated in place) and dispatch on the step type;
an unknown step type yields the bare `Erro no fluxo.` error result. -/
def processStep (env : Env) (cfg : Config) (phone msg : String) (ust : UserState)
    (uctx : List (String × JSVal)) (now : Nat) (est : EngineState) :
    Except Unit (FlowResult × EngineState) := do
  let flow ←
    match cfg.flows.lookup ust.currentFlow with
    | some f => pure f
    | none => throw ()
  let step ←
    match flow.steps.get? ust.currentStep with
    | some s => pure s
    | none => throw ()
  let ust1 := { ust with history := ust.history ++
    [{ stepId := step.id, type := step.type, input := msg, timestamp := now }] }
  let est1 := setUser est phone ust1
  if step.type = "message" then handleMessageStep cfg phone step ust1 uctx est1
  else if step.type = "menu" then handleMenuStep cfg phone msg step ust1 uctx now est1
  else if step.type = "capture_data" then handleCaptureDataStep cfg phone msg step ust1 uctx est1
  else if step.type = "quick_reply" then handleQuickReplyStep cfg phone msg step ust1 uctx est1
  else if step.type = "ai_response" then handleAIResponseStep env cfg phone msg step ust1 uctx est1
  else if step.type = "action" then handleActionStep cfg phone step ust1 uctx est1
  else if step.type = "condition" then handleConditionStep cfg phone msg step ust1 uctx est1
  else pure ({ message := some "Erro no fluxo.", error := true }, est1)

/-- `FlowEngine.processMessage`: initialize the identity's flow state on
first contact (or when the stored state has no current flow), process the
current step, and convert any thrown error into the apology +
transfer-to-human result. -/
def processMessage (env : Env) (cfg : Config) (est : EngineState) (phone msg : String)
    (uctx : List (String × JSVal)) (now : Nat) : FlowResult × EngineState :=
  let inner : Except Unit (FlowResult × EngineState) := do
    let flowId := if cfg.mode = "atendimento" then cfg.atendimentoFlowId else cfg.triagemFlowId
    match est.userStates.lookup phone with
    | some u =>
      if u.currentFlow = "" then do
        let init ← initializeUserFlow cfg phone flowId uctx now est
        match init.1 with
        | none => throw ()
        | some u' => processStep env cfg phone msg u' uctx now init.2
      else processStep env cfg phone msg u uctx now est
    | none => do
      let init ← initializeUserFlow cfg phone flowId uctx now est
      match init.1 with
      | none => throw ()
      | some u' => processStep env cfg phone msg u' uctx now init.2
  match inner with
  | .ok r => r
  | .error _ =>
    ({ message := some "Desculpe, ocorreu um erro. Vou te conectar com um atendente.",
       action := some "transfer_human", error := true }, est)

/-- The transport layer's `handleFlowResult` escalation
(`modules/whatsapp.js`): an `error` result is followed by
`transferToHuman`, and a `transfer_human` action is realized by
`handleAction`; this predicate says whether a flow result reaches a human
hand-off at the transport. -/
def transportTransfersToHuman (r : FlowResult) : Bool :=
  if r.error then true
  else
    match r.action with
    | some a => a = "transfer_human"
    | none => false

end FlowEngine

/-! ## Concrete fixtures used by witnesses and counterexamples -/

/-- A flow-engine collaborator stub whose brain returns nothing (the
claims exercised on it never reach an `ai_response` step). -/
def fixFlowEnv : FlowEngine.Env := ⟨fun _ => ⟨"", 0⟩⟩

/-- A one-step menu flow configuration with `transfer_after_limit` on. -/
def fixMenuCfg : FlowEngine.Config :=
  { mode := "atendimento", atendimentoFlowId := "f", triagemFlowId := "f",
    flows := [("f", ⟨[{ id := "m1", type := "menu",
                        options := [{ id := "1", action := "transfer_human" }] }]⟩)],
    departments := [], fallback := ⟨true, "Transferindo para atendente."⟩, aiEnabled := false }

/-- The same configuration with `transfer_after_limit` off. -/
def fixMenuCfgNoTransfer : FlowEngine.Config :=
  { fixMenuCfg with fallback := ⟨false, "Transferindo para atendente."⟩ }

/-- A user state waiting on the menu step with two retries consumed. -/
def fixMenuUst : FlowEngine.UserState :=
  { phone := "p", currentFlow := "f", currentStep := 0, stepId := "m1", data := [],
    context := [], retryCount := 2, history := [], startedAt := 0, waitingInput := true }

/-- The menu step of `fixMenuCfg`. -/
def fixMenuStep : FlowEngine.Step :=
  { id := "m1", type := "menu", options := [{ id := "1", action := "transfer_human" }] }

/-- The step with an unknown step type. -/
def fixWeirdStep : FlowEngine.Step := { id := "s1", type := "weird" }

/-- The flow holding only the unknown-type step. -/
def fixWeirdFlow : FlowEngine.Flow := ⟨[fixWeirdStep]⟩

/-- A flow whose only step has an unknown step type. -/
def fixWeirdCfg : FlowEngine.Config :=
  { fixMenuCfg with flows := [("f", fixWeirdFlow)] }

/-- An action step with an unknown action name. -/
def fixBadActionStep : FlowEngine.Step :=
  { id := "a1", type := "action", action := "launch_rocket" }

/-- A user state positioned on the unknown-type step. -/
def fixWeirdUst : FlowEngine.UserState :=
  { fixMenuUst with stepId := "s1", retryCount := 0, waitingInput := false }

/-- A quick-reply step with two labelled options. -/
def fixQuickStep : FlowEngine.Step :=
  { id := "q1", type := "quick_reply",
    options := [{ id := "yes", label := "Sim, quero" }, { id := "no", label := "Nao" }] }

/-- A configuration containing only the quick-reply flow. -/
def fixQuickCfg : FlowEngine.Config :=
  { fixMenuCfg with flows := [("f", ⟨[fixQuickStep]⟩)] }

/-- A user state waiting on the quick-reply step with a nonzero retry
counter (which a non-match must leave untouched). -/
def fixQuickUst : FlowEngine.UserState :=
  { fixMenuUst with stepId := "q1", retryCount := 7, waitingInput := true }

/-- A capture step validating with the `text` validator. -/
def fixCaptureStep : FlowEngine.Step :=
  { id := "c1", type := "capture_data", message := "Qual seu nome?",
    field := "name", validation := "text" }

/-- A configuration containing only the capture flow. -/
def fixCaptureCfg : FlowEngine.Config :=
  { fixMenuCfg with flows := [("f", ⟨[fixCaptureStep]⟩)] }

/-- A user state waiting on the capture step with two retries consumed. -/
def fixCaptureUst : FlowEngine.UserState :=
  { fixMenuUst with stepId := "c1" }

/-- The v2 brain environment with inert collaborators: zero TF-IDF and
Jaro-Winkler measures, a classifier that always fails, neutral sentiment,
no entities and the identity stemmer. -/
def fixAdvEnv : AdvancedAIBrain.Env :=
  { tfidfMeasure := fun _ _ => 0, jaroWinkler := fun _ _ => 0,
    bayesClassify := fun _ => none, sentimentRaw := fun _ => (0, 0),
    nlpEntities := fun _ => [], stem := fun s => s }

/-- The inert environment with a TF-IDF collaborator that scores every
document `3` (so a single TF-IDF candidate fuses to `0.9`). -/
def fixAdvEnvHi : AdvancedAIBrain.Env :=
  { fixAdvEnv with tfidfMeasure := fun _ _ => 3 }

/-- The constructor-default v2 configuration (learning off). -/
def fixAdvConfig : AdvancedAIBrain.Config :=
  { minConfidence := 0.75, learningEnabled := false, maxContextSize := 10,
    cacheEnabled := true, cacheMaxSize := 1000, cacheTTL := 3600000 }

/-- A fresh v2 brain state with an empty corpus. -/
def fixAdvState0 : AdvancedAIBrain.State :=
  { config := fixAdvConfig, trainingData := [], db := [],
    conversationContext := [], responseCache := [],
    stats := ⟨0, 0, 0, [], []⟩ }

/-- The seeded approved training example of the corpus (`oi` →
`Olá! Como posso ajudar você hoje?`). -/
def fixSeedExample : TrainingExample :=
  ⟨1, "oi", "Olá! Como posso ajudar você hoje?", 1, 0, 1⟩

/-- A v1 brain state holding the approved seed example. -/
def fixAIBrainState : AIBrain.State :=
  ⟨true, [fixSeedExample], [fixSeedExample]⟩

/-- An approved training example dissimilar to `oi`. -/
def fixC4Example : TrainingExample := ⟨1, "abc", "resp", 1, 0, 1⟩

/-- A v2 brain state whose corpus holds only `fixC4Example`. -/
def fixC4State : AdvancedAIBrain.State :=
  { fixAdvState0 with trainingData := [fixC4Example], db := [fixC4Example] }

/-- A v2 brain state whose conversation context for `p1` records one
`greeting` intent. -/
def fixC8State : AdvancedAIBrain.State :=
  { fixAdvState0 with conversationContext := [("p1", [⟨"oi", "greeting", "neutral", 0⟩])] }

/-- A candidate whose output text derives the associated intent
`general`. -/
def fixC8Cand : AdvancedAIBrain.Candidate :=
  ⟨"Vou verificar para você.", 0.5, "tfidf", some 1⟩

/-- Candidates used by the fusion witness: two share the output `A`. -/
def fixC5Cands : List AdvancedAIBrain.Candidate :=
  [⟨"A", 0.5, "tfidf", none⟩, ⟨"B", 0.4, "levenshtein", none⟩, ⟨"A", 0.7, "jarowinkler", none⟩]

/-! # Theorems -/

/-! ## Helper lemmas on the JS-semantics building blocks -/

theorem mem_stableInsert (before : α → α → Bool) (a x : α) :
    ∀ l : List α, x ∈ stableInsert before a l ↔ x = a ∨ x ∈ l := by
  intro l
  induction l with
  | nil => simp [stableInsert]
  | cons b bs ih =>
    by_cases h : before a b = true
    · simp [stableInsert, h, List.mem_cons]
    · simp only [stableInsert, h, if_false, Bool.not_eq_true] at *
      simp [List.mem_cons, ih]
      tauto

theorem mem_stableSort_aux (before : α → α → Bool) (x : α) :
    ∀ (l acc : List α), x ∈ l.foldl (fun acc a => stableInsert before a acc) acc ↔
      x ∈ acc ∨ x ∈ l := by
  intro l
  induction l with
  | nil => simp
  | cons b bs ih =>
    intro acc
    simp only [List.foldl_cons, ih, mem_stableInsert, List.mem_cons]
    tauto

theorem mem_stableSort (before : α → α → Bool) (x : α) (l : List α) :
    x ∈ stableSort before l ↔ x ∈ l := by
  simp [stableSort, mem_stableSort_aux]

theorem pairwise_stableInsert (f : α → ℚ) (a : α) :
    ∀ l : List α, l.Pairwise (fun x y => f y ≤ f x) →
      (stableInsert (fun x y => f y < f x) a l).Pairwise (fun x y => f y ≤ f x) := by
  intro l
  induction l with
  | nil => simp [stableInsert]
  | cons b bs ih =>
    intro hp
    rw [List.pairwise_cons] at hp
    by_cases h : (f b < f a)
    · simp only [stableInsert]
      rw [if_pos (decide_eq_true h)]
      rw [List.pairwise_cons]
      constructor
      · intro y hy
        rcases List.mem_cons.mp hy with rfl | hy'
        · exact le_of_lt h
        · exact le_trans (hp.1 y hy') (le_of_lt h)
      · exact List.pairwise_cons.mpr hp
    · simp only [stableInsert]
      rw [if_neg (by simpa using h)]
      rw [List.pairwise_cons]
      constructor
      · intro y hy
        rcases (mem_stableInsert _ _ _ _).mp hy with rfl | hy'
        · exact le_of_not_lt h
        · exact hp.1 y hy'
      · exact ih hp.2

theorem pairwise_stableSort (f : α → ℚ) :
    ∀ (l acc : List α), acc.Pairwise (fun x y => f y ≤ f x) →
      (l.foldl (fun acc a => stableInsert (fun x y => f y < f x) a acc) acc).Pairwise
        (fun x y => f y ≤ f x) := by
  intro l
  induction l with
  | nil => intro acc h; simpa using h
  | cons b bs ih =>
    intro acc h
    exact ih _ (pairwise_stableInsert f b acc h)

theorem sortDescBy_pairwise (f : α → ℚ) (l : List α) :
    (sortDescBy f l).Pairwise (fun x y => f y ≤ f x) :=
  pairwise_stableSort f l [] (by simp)

theorem sortDescBy_head_max (f : α → ℚ) (l : List α) (d : α) (h : l ≠ []) :
    (sortDescBy f l).headD d ∈ l ∧ ∀ x ∈ l, f x ≤ f ((sortDescBy f l).headD d) := by
  have hmem : ∀ x, x ∈ sortDescBy f l ↔ x ∈ l := fun x => mem_stableSort _ x l
  have hne : sortDescBy f l ≠ [] := by
    intro hnil
    rcases List.exists_mem_of_ne_nil l h with ⟨x, hx⟩
    have := (hmem x).mpr hx
    rw [hnil] at this
    exact absurd this (List.not_mem_nil x)
  obtain ⟨a, as, hcons⟩ := List.exists_cons_of_ne_nil hne
  have hp := sortDescBy_pairwise f l
  rw [hcons] at hp
  rw [List.pairwise_cons] at hp
  constructor
  · have : (sortDescBy f l).headD d = a := by rw [hcons]; rfl
    rw [this]
    exact (hmem a).mp (by rw [hcons]; exact List.mem_cons_self a as)
  · intro x hx
    have hx' : x ∈ sortDescBy f l := (hmem x).mpr hx
    rw [hcons] at hx'
    have hhead : (sortDescBy f l).headD d = a := by rw [hcons]; rfl
    rw [hhead]
    rcases List.mem_cons.mp hx' with rfl | hx''
    · exact le_refl _
    · exact hp.1 x hx''

theorem lookup_map_overwrite (k : String) (v : β) :
    ∀ m : List (String × β), m.any (fun p => p.1 = k) = true →
      (m.map (fun p => if p.1 = k then (k, v) else p)).lookup k = some v := by
  intro m
  induction m with
  | nil => intro h; simp at h
  | cons p ps ih =>
    intro h
    obtain ⟨pk, pv⟩ := p
    by_cases hp : pk = k
    · simp only [List.map_cons]
      rw [if_pos hp]
      simp [List.lookup]
    · have hps : ps.any (fun q => q.1 = k) = true := by
        rcases List.any_eq_true.mp h with ⟨q, hq, hq2⟩
        rcases List.mem_cons.mp hq with rfl | hq'
        · exact absurd (by simpa using hq2) hp
        · exact List.any_eq_true.mpr ⟨q, hq', hq2⟩
      have hbeq : (k == pk) = false := beq_eq_false_iff_ne.mpr (fun hk => hp hk.symm)
      simp only [List.map_cons]
      rw [if_neg hp]
      simp only [List.lookup, hbeq]
      exact ih hps

theorem lookup_append_new (k : String) (v : β) :
    ∀ m : List (String × β), m.any (fun p => p.1 = k) = false →
      (m ++ [(k, v)]).lookup k = some v := by
  intro m
  induction m with
  | nil => intro h; simp [List.lookup]
  | cons p ps ih =>
    intro h
    obtain ⟨pk, pv⟩ := p
    have hp : ¬(pk = k) := by
      intro hk
      have hany : ((pk, pv) :: ps).any (fun q => q.1 = k) = true :=
        List.any_eq_true.mpr ⟨(pk, pv), List.mem_cons_self _ ps, by simpa using hk⟩
      rw [h] at hany
      exact Bool.false_ne_true hany
    have hps : ps.any (fun q => q.1 = k) = false := by
      cases hq : ps.any (fun q => q.1 = k) with
      | false => rfl
      | true =>
        rcases List.any_eq_true.mp hq with ⟨q, hq1, hq2⟩
        have hany : ((pk, pv) :: ps).any (fun q => q.1 = k) = true :=
          List.any_eq_true.mpr ⟨q, List.mem_cons.mpr (Or.inr hq1), hq2⟩
        rw [h] at hany
        exact absurd hany Bool.false_ne_true
    have hbeq : (k == pk) = false := beq_eq_false_iff_ne.mpr (fun hk => hp hk.symm)
    simp only [List.cons_append, List.lookup, hbeq]
    exact ih hps

theorem lookup_mapSet_self (m : List (String × β)) (k : String) (v : β) :
    (mapSet m k v).lookup k = some v := by
  unfold mapSet
  split
  · next h => exact lookup_map_overwrite k v m h
  · next h => exact lookup_append_new k v m (Bool.eq_false_iff.mpr h)

theorem moveToNextStep_resolved (cfg : FlowEngine.Config) (phone : String)
    (ust : FlowEngine.UserState) (nextId : String) (est : FlowEngine.EngineState)
    (flw : FlowEngine.Flow) (hflow : cfg.flows.lookup ust.currentFlow = some flw) :
    FlowEngine.moveToNextStep cfg phone ust nextId est =
      (match flw.steps.findIdx? (fun s => s.id = nextId) with
       | none => .ok (ust, est)
       | some idx => .ok ({ ust with currentStep := idx, stepId := nextId },
           FlowEngine.setUser est phone { ust with currentStep := idx, stepId := nextId })) := by
  unfold FlowEngine.moveToNextStep
  rw [hflow]

/-! ## Claim C9 -/

/-- C9: for every validator name outside the configured set
(text/email/phone/cpf/cnpj/cpf_cnpj/number/option) and every input,
`validateInput` returns `valid = true` with the raw value unchanged — an
unknown validator name silently accepts any input. -/
theorem claim_C9_unknown_validator_accepts_raw :
    ∀ vt : String,
      vt ∉ (["text", "email", "phone", "cpf", "cnpj", "cpf_cnpj", "number", "option"] : List String) →
      ∀ value : String,
        FlowEngine.validateInput value vt =
          { valid := true, value := .str value, error := none } := by
  intro vt hvt value
  simp only [List.mem_cons, List.not_mem_nil, or_false, not_or] at hvt
  obtain ⟨h1, h2, h3, h4, h5, h6, h7, h8⟩ := hvt
  simp [FlowEngine.validateInput, h1, h2, h3, h4, h5, h6, h7, h8]

/-- Witness for C9 at the concrete unknown validator name `anything`. -/
theorem claim_C9_witness :
    ("anything" ∉ (["text", "email", "phone", "cpf", "cnpj", "cpf_cnpj", "number", "option"] : List String)) ∧
    FlowEngine.validateInput "raw value 123" "anything" =
      { valid := true, value := .str "raw value 123", error := none } :=
  ⟨by decide, claim_C9_unknown_validator_accepts_raw "anything" (by decide) "raw value 123"⟩

/-! ## Claim C7 -/

/-- C7: on a `quick_reply` step awaiting input, a reply is accepted
exactly when it equals an option id case-insensitively or is a
case-insensitive substring of an option label; a non-matching reply
re-prompts with the engine state completely untouched (in particular the
retry counter is unchanged and the max-retries fallback is unreachable),
and an accepted reply never re-prompts, clears `waitingInput` and keeps
the retry counter. -/
theorem claim_C7_quick_reply_matching
    (cfg : FlowEngine.Config) (phone msg : String) (step : FlowEngine.Step)
    (ust : FlowEngine.UserState) (uctx : List (String × JSVal)) (est : FlowEngine.EngineState)
    (flw : FlowEngine.Flow)
    (hw : ust.waitingInput = true)
    (hflow : cfg.flows.lookup ust.currentFlow = some flw) :
    ((∀ opt ∈ step.options,
        ¬(jsToLower opt.id = jsTrim (jsToLower msg) ∨
          jsIncludes (jsToLower opt.label) (jsTrim (jsToLower msg)) = true)) →
      FlowEngine.handleQuickReplyStep cfg phone msg step ust uctx est =
        .ok ({ message := some "❌ Resposta inválida. Escolha uma das opções acima.",
               waitingInput := true }, est))
    ∧ ((∃ opt ∈ step.options,
        jsToLower opt.id = jsTrim (jsToLower msg) ∨
          jsIncludes (jsToLower opt.label) (jsTrim (jsToLower msg)) = true) →
      ∃ r est', FlowEngine.handleQuickReplyStep cfg phone msg step ust uctx est = .ok (r, est') ∧
        r.message ≠ some "❌ Resposta inválida. Escolha uma das opções acima." ∧
        r.error = false ∧
        (r.restart = true ∨ ∃ u', est'.userStates.lookup phone = some u' ∧
          u'.waitingInput = false ∧ u'.retryCount = ust.retryCount)) := by
  constructor
  · intro hnone
    have hfind : step.options.find? (fun opt =>
        jsToLower opt.id = jsTrim (jsToLower msg) ||
          jsIncludes (jsToLower opt.label) (jsTrim (jsToLower msg))) = none := by
      rw [List.find?_eq_none]
      intro opt hopt
      have h := hnone opt hopt
      simp only [Bool.or_eq_true, decide_eq_true_eq]
      tauto
    simp only [FlowEngine.handleQuickReplyStep, hw, Bool.not_true, Bool.false_eq_true,
      if_false, hfind]
    rfl
  · rintro ⟨opt, hopt, hmatch⟩
    have hsome : (step.options.find? (fun opt =>
        jsToLower opt.id = jsTrim (jsToLower msg) ||
          jsIncludes (jsToLower opt.label) (jsTrim (jsToLower msg)))).isSome := by
      rw [List.find?_isSome]
      refine ⟨opt, hopt, ?_⟩
      simp only [Bool.or_eq_true, decide_eq_true_eq]
      tauto
    obtain ⟨o, hfind⟩ := Option.isSome_iff_exists.mp hsome
    simp only [FlowEngine.handleQuickReplyStep, hw, Bool.not_true, Bool.false_eq_true,
      if_false, hfind]
    split
    · next n heq =>
      split
      · next hmain =>
        exact ⟨_, _, rfl, by simp, rfl, Or.inl rfl⟩
      · next hmain =>
        rw [moveToNextStep_resolved cfg phone _ n _ flw (by exact hflow)]
        split
        · next heq2 =>
          exact ⟨_, _, rfl, by simp, rfl, Or.inr ⟨_, lookup_mapSet_self _ _ _, rfl, rfl⟩⟩
        · next idx heq2 =>
          exact ⟨_, _, rfl, by simp, rfl, Or.inr ⟨_, lookup_mapSet_self _ _ _, rfl, rfl⟩⟩
    · next heq =>
      exact ⟨_, _, rfl, by simp, rfl, Or.inr ⟨_, lookup_mapSet_self _ _ _, rfl, rfl⟩⟩

/-- Witness for C7: on the concrete quick-reply step, `zzz` re-prompts
leaving the state untouched, and `QUERO` is accepted as a substring of
the label `Sim, quero`. -/
theorem claim_C7_witness :
    (FlowEngine.handleQuickReplyStep fixQuickCfg "p" "zzz" fixQuickStep fixQuickUst []
        ⟨[("p", fixQuickUst)]⟩ =
      .ok ({ message := some "❌ Resposta inválida. Escolha uma das opções acima.",
             waitingInput := true }, ⟨[("p", fixQuickUst)]⟩)) ∧
    (∃ r est', FlowEngine.handleQuickReplyStep fixQuickCfg "p" "QUERO" fixQuickStep fixQuickUst []
        ⟨[("p", fixQuickUst)]⟩ = .ok (r, est') ∧
      r.message ≠ some "❌ Resposta inválida. Escolha uma das opções acima." ∧
      r.error = false ∧
      (r.restart = true ∨ ∃ u', est'.userStates.lookup "p" = some u' ∧
        u'.waitingInput = false ∧ u'.retryCount = fixQuickUst.retryCount)) := by
  constructor
  · exact (claim_C7_quick_reply_matching fixQuickCfg "p" "zzz" fixQuickStep fixQuickUst []
      ⟨[("p", fixQuickUst)]⟩ ⟨[fixQuickStep]⟩ rfl (by with_unfolding_all decide)).1
      (by with_unfolding_all decide)
  · exact (claim_C7_quick_reply_matching fixQuickCfg "p" "QUERO" fixQuickStep fixQuickUst []
      ⟨[("p", fixQuickUst)]⟩ ⟨[fixQuickStep]⟩ rfl (by with_unfolding_all decide)).2
      (by with_unfolding_all decide)

/-! ## Claim C2 -/

/-- C2 fails on the code: on a step with the unknown type `weird`,
`processMessage` returns the bare result `Erro no fluxo.` with
`error = true` and *no* action tag — not the apology + transfer-to-human
result the claim asserts (the unknown-type branch returns early and never
throws, so the catch-all that produces the apology is not reached). -/
theorem claim_C2_counterexample :
    (FlowEngine.processMessage fixFlowEnv fixWeirdCfg ⟨[("p", fixWeirdUst)]⟩ "p" "hello" [] 5).1.action
        = none ∧
    (FlowEngine.processMessage fixFlowEnv fixWeirdCfg ⟨[("p", fixWeirdUst)]⟩ "p" "hello" [] 5).1.message
        = some "Erro no fluxo." ∧
    (FlowEngine.processMessage fixFlowEnv fixWeirdCfg ⟨[("p", fixWeirdUst)]⟩ "p" "hello" [] 5).1.action
        ≠ some "transfer_human" := by
  with_unfolding_all decide

/-- C2 amended: an unknown step type yields the bare error result
`Erro no fluxo.` with `error = true` and no action tag, and an unknown
action name yields `Ação não implementada.` with `error = true` and no
action tag; neither carries the apology or a transfer action itself — the
escalation to a human happens in the transport layer, whose
`handleFlowResult` transfers on `error = true`. -/
theorem claim_C2_amended :
    (∀ (env : FlowEngine.Env) (cfg : FlowEngine.Config) (phone msg : String)
       (ust : FlowEngine.UserState) (uctx : List (String × JSVal)) (now : Nat)
       (est : FlowEngine.EngineState) (flw : FlowEngine.Flow) (step : FlowEngine.Step),
       cfg.flows.lookup ust.currentFlow = some flw →
       flw.steps.get? ust.currentStep = some step →
       step.type ∉ (["message", "menu", "capture_data", "quick_reply", "ai_response",
         "action", "condition"] : List String) →
       ∃ est', FlowEngine.processStep env cfg phone msg ust uctx now est =
           .ok ({ message := some "Erro no fluxo.", error := true }, est') ∧
         FlowEngine.transportTransfersToHuman
           { message := some "Erro no fluxo.", error := true } = true)
    ∧ (∀ (cfg : FlowEngine.Config) (phone : String) (step : FlowEngine.Step)
         (ust : FlowEngine.UserState) (uctx : List (String × JSVal))
         (est : FlowEngine.EngineState),
       step.action ∉ (["transfer_department", "transfer_human", "generate_boleto",
         "send_email"] : List String) →
       FlowEngine.handleActionStep cfg phone step ust uctx est =
           .ok ({ message := some "Ação não implementada.", error := true }, est) ∧
         FlowEngine.transportTransfersToHuman
           { message := some "Ação não implementada.", error := true } = true) := by
  constructor
  · intro env cfg phone msg ust uctx now est flw step hflow hstep htype
    simp only [List.mem_cons, List.not_mem_nil, or_false, not_or] at htype
    obtain ⟨t1, t2, t3, t4, t5, t6, t7⟩ := htype
    refine ⟨FlowEngine.setUser est phone { ust with history := ust.history ++ [⟨step.id, step.type, msg, now⟩] }, ?_, by with_unfolding_all decide⟩
    simp only [FlowEngine.processStep, hflow, hstep, pure_bind]
    rw [if_neg t1, if_neg t2, if_neg t3, if_neg t4, if_neg t5, if_neg t6, if_neg t7]
    rfl
  · intro cfg phone step ust uctx est haction
    simp only [List.mem_cons, List.not_mem_nil, or_false, not_or] at haction
    obtain ⟨a1, a2, a3, a4⟩ := haction
    refine ⟨?_, by with_unfolding_all decide⟩
    unfold FlowEngine.handleActionStep
    rw [if_neg a1, if_neg a2, if_neg a3, if_neg a4]
    rfl

/-- Witness for the amended C2 at the concrete unknown step type `weird`
and the concrete unknown action `launch_rocket`. -/
theorem claim_C2_amended_witness :
    (∃ est', FlowEngine.processStep fixFlowEnv fixWeirdCfg "p" "hello" fixWeirdUst [] 5
          ⟨[("p", fixWeirdUst)]⟩ =
        .ok ({ message := some "Erro no fluxo.", error := true }, est') ∧
      FlowEngine.transportTransfersToHuman
        { message := some "Erro no fluxo.", error := true } = true) ∧
    (FlowEngine.handleActionStep fixWeirdCfg "p" fixBadActionStep fixWeirdUst [] ⟨[]⟩ =
        .ok ({ message := some "Ação não implementada.", error := true }, ⟨[]⟩) ∧
      FlowEngine.transportTransfersToHuman
        { message := some "Ação não implementada.", error := true } = true) :=
  ⟨claim_C2_amended.1 fixFlowEnv fixWeirdCfg "p" "hello" fixWeirdUst [] 5
      ⟨[("p", fixWeirdUst)]⟩ fixWeirdFlow fixWeirdStep (by with_unfolding_all decide)
      (by with_unfolding_all decide) (by decide),
   claim_C2_amended.2 fixWeirdCfg "p" fixBadActionStep fixWeirdUst [] ⟨[]⟩ (by decide)⟩

/-! ## Claim C1 -/

/-- C1 fails on the code: with `transfer_after_limit` set (the transfer
branch of `handleMaxRetriesExceeded`), the third rejected menu reply
yields the transfer-to-human action but the identity's `UserFlowState`
is *not* removed from the per-user map. -/
theorem claim_C1_counterexample :
    (FlowEngine.processMessage fixFlowEnv fixMenuCfg ⟨[("p", fixMenuUst)]⟩ "p" "9" [] 5).1.action
        = some "transfer_human" ∧
    ((FlowEngine.processMessage fixFlowEnv fixMenuCfg ⟨[("p", fixMenuUst)]⟩ "p" "9" [] 5).2.userStates.lookup
        "p").isSome = true := by
  with_unfolding_all decide

/-- C1 amended: when the retry counter reaches the maximum (menu:
`max_retries` defaulting to 3; capture: hard-coded 3) on another rejected
input, both validated steps delegate to `handleMaxRetriesExceeded` with
the bumped retry counter stored; that fallback returns the
transfer-to-human action and *keeps* the `UserFlowState` when
`fallback.transfer_after_limit` is set, and otherwise *removes* the
`UserFlowState` and returns a restart result with no transfer action. -/
theorem claim_C1_amended :
    (∀ (cfg : FlowEngine.Config) (phone msg : String) (step : FlowEngine.Step)
       (ust : FlowEngine.UserState) (uctx : List (String × JSVal)) (now : Nat)
       (est : FlowEngine.EngineState),
       ust.waitingInput = true →
       (∀ opt ∈ step.options, ¬(opt.id = jsTrim msg)) →
       step.max_retries.getD 3 ≤ ust.retryCount + 1 →
       FlowEngine.handleMenuStep cfg phone msg step ust uctx now est =
         .ok (FlowEngine.handleMaxRetriesExceeded cfg phone
           (FlowEngine.setUser est phone { ust with retryCount := ust.retryCount + 1 })))
    ∧ (∀ (cfg : FlowEngine.Config) (phone msg : String) (step : FlowEngine.Step)
         (ust : FlowEngine.UserState) (uctx : List (String × JSVal))
         (est : FlowEngine.EngineState),
       ust.waitingInput = true →
       (FlowEngine.validateInput msg step.validation).valid = false →
       3 ≤ ust.retryCount + 1 →
       FlowEngine.handleCaptureDataStep cfg phone msg step ust uctx est =
         .ok (FlowEngine.handleMaxRetriesExceeded cfg phone
           (FlowEngine.setUser est phone { ust with retryCount := ust.retryCount + 1 })))
    ∧ (∀ (cfg : FlowEngine.Config) (phone : String) (est : FlowEngine.EngineState),
       cfg.fallback.transfer_after_limit = true →
       (FlowEngine.handleMaxRetriesExceeded cfg phone est).1.action = some "transfer_human" ∧
       (FlowEngine.handleMaxRetriesExceeded cfg phone est).2 = est)
    ∧ (∀ (cfg : FlowEngine.Config) (phone : String) (est : FlowEngine.EngineState),
       cfg.fallback.transfer_after_limit = false →
       (FlowEngine.handleMaxRetriesExceeded cfg phone est).1.action = none ∧
       (FlowEngine.handleMaxRetriesExceeded cfg phone est).1.restart = true ∧
       (FlowEngine.handleMaxRetriesExceeded cfg phone est).2 =
         FlowEngine.resetUserFlow est phone) := by
  refine ⟨?_, ?_, ?_, ?_⟩
  · intro cfg phone msg step ust uctx now est hw hnone hmax
    have hfind : step.options.find? (fun opt => opt.id = jsTrim msg) = none := by
      rw [List.find?_eq_none]
      intro opt hopt
      simpa using hnone opt hopt
    simp only [FlowEngine.handleMenuStep, hw, Bool.not_true, Bool.false_eq_true, if_false, hfind]
    rw [if_pos hmax]
    rfl
  · intro cfg phone msg step ust uctx est hw hval hmax
    simp only [FlowEngine.handleCaptureDataStep, hw, Bool.not_true, Bool.false_eq_true,
      if_false, hval, Bool.not_false, if_true]
    rw [if_pos hmax]
    rfl
  · intro cfg phone est htrans
    unfold FlowEngine.handleMaxRetriesExceeded
    rw [if_pos htrans]
    exact ⟨rfl, rfl⟩
  · intro cfg phone est htrans
    unfold FlowEngine.handleMaxRetriesExceeded
    rw [if_neg (by simp [htrans])]
    exact ⟨rfl, rfl, rfl⟩

/-- Witness for the amended C1: the concrete menu flow at two consumed
retries rejecting `9`, the concrete capture flow rejecting the
too-short text `x`, and the two fallback branches on the two concrete
configurations. -/
theorem claim_C1_amended_witness :
    (FlowEngine.handleMenuStep fixMenuCfg "p" "9" fixMenuStep fixMenuUst [] 5
        ⟨[("p", fixMenuUst)]⟩ =
      .ok (FlowEngine.handleMaxRetriesExceeded fixMenuCfg "p"
        (FlowEngine.setUser ⟨[("p", fixMenuUst)]⟩ "p"
          { fixMenuUst with retryCount := fixMenuUst.retryCount + 1 }))) ∧
    (FlowEngine.handleCaptureDataStep fixCaptureCfg "p" "x" fixCaptureStep fixCaptureUst []
        ⟨[("p", fixCaptureUst)]⟩ =
      .ok (FlowEngine.handleMaxRetriesExceeded fixCaptureCfg "p"
        (FlowEngine.setUser ⟨[("p", fixCaptureUst)]⟩ "p"
          { fixCaptureUst with retryCount := fixCaptureUst.retryCount + 1 }))) ∧
    ((FlowEngine.handleMaxRetriesExceeded fixMenuCfg "p" ⟨[("p", fixMenuUst)]⟩).1.action =
        some "transfer_human" ∧
      (FlowEngine.handleMaxRetriesExceeded fixMenuCfg "p" ⟨[("p", fixMenuUst)]⟩).2 =
        ⟨[("p", fixMenuUst)]⟩) ∧
    ((FlowEngine.handleMaxRetriesExceeded fixMenuCfgNoTransfer "p" ⟨[("p", fixMenuUst)]⟩).1.action =
        none ∧
      (FlowEngine.handleMaxRetriesExceeded fixMenuCfgNoTransfer "p" ⟨[("p", fixMenuUst)]⟩).1.restart =
        true ∧
      (FlowEngine.handleMaxRetriesExceeded fixMenuCfgNoTransfer "p" ⟨[("p", fixMenuUst)]⟩).2 =
        FlowEngine.resetUserFlow ⟨[("p", fixMenuUst)]⟩ "p") :=
  ⟨claim_C1_amended.1 fixMenuCfg "p" "9" fixMenuStep fixMenuUst [] 5 ⟨[("p", fixMenuUst)]⟩
      rfl (by decide) (by decide),
   claim_C1_amended.2.1 fixCaptureCfg "p" "x" fixCaptureStep fixCaptureUst []
      ⟨[("p", fixCaptureUst)]⟩ rfl (by decide) (by decide),
   claim_C1_amended.2.2.1 fixMenuCfg "p" ⟨[("p", fixMenuUst)]⟩ rfl,
   claim_C1_amended.2.2.2 fixMenuCfgNoTransfer "p" ⟨[("p", fixMenuUst)]⟩ rfl⟩

/-! ## Claim C3 -/

/-- C3 fails on the code: `AdvancedAIBrain.learn` (the learn of the
exported v2 brain) performs no similarity check at all, so
`learn("oi","X",true)` followed by `learn("oi","Y",true)` returns `true`
both times and the stored corpus grows from 1 to 2 rows. -/
theorem claim_C3_counterexample :
    (AdvancedAIBrain.learn fixAdvState0 "oi" "X" true).1 = true ∧
    (AdvancedAIBrain.learn fixAdvState0 "oi" "X" true).2.db.length = 1 ∧
    (AdvancedAIBrain.learn ((AdvancedAIBrain.learn fixAdvState0 "oi" "X" true).2) "oi" "Y" true).1
      = true ∧
    (AdvancedAIBrain.learn ((AdvancedAIBrain.learn fixAdvState0 "oi" "X" true).2) "oi" "Y" true).2.db.length
      = 2 := by
  with_unfolding_all decide

/-- C3 amended: only the v1 `AIBrain.learn` deduplicates, and only
against the *loaded* corpus: when learning is enabled and some loaded
training example's input has fused similarity above `0.9` to the
sanitized new input, the call returns `false` and the state is unchanged.
(`AdvancedAIBrain.learn` has no such check, and rows saved by either
`learn` are stored unapproved — `saveTrainingData` drops the approved
flag — so they are not reloaded into the corpus.) -/
theorem claim_C3_amended (st : AIBrain.State) (input output : String) (item : TrainingExample)
    (hen : st.learningEnabled = true)
    (hmem : item ∈ st.trainingData)
    (hsim : (0.9 : ℚ) < AIBrain.calculateSimilarity (AIBrain.sanitize input) item.input) :
    AIBrain.learn st input output true = (false, st) := by
  unfold AIBrain.learn
  rw [hen]
  simp only [Bool.not_true, Bool.false_eq_true, if_false]
  have hsome : (st.trainingData.find? (fun it =>
      (0.9 : ℚ) < AIBrain.calculateSimilarity (AIBrain.sanitize input) it.input)).isSome := by
    rw [List.find?_isSome]
    exact ⟨item, hmem, decide_eq_true hsim⟩
  obtain ⟨it, hfind⟩ := Option.isSome_iff_exists.mp hsome
  rw [hfind]

/-- Witness for the amended C3: on a v1 state holding the approved seed
example `oi`, a second `learn("oi", "Y", true)` is rejected with the
state unchanged (the fused similarity of `oi` to `oi` is `1 > 0.9`). -/
theorem claim_C3_amended_witness :
    (0.9 : ℚ) < AIBrain.calculateSimilarity (AIBrain.sanitize "oi") fixSeedExample.input ∧
    AIBrain.learn fixAIBrainState "oi" "Y" true = (false, fixAIBrainState) :=
  ⟨by with_unfolding_all decide,
   claim_C3_amended fixAIBrainState "oi" "Y" fixSeedExample rfl
     (by with_unfolding_all decide) (by with_unfolding_all decide)⟩

/-! ## Claim C6 -/

theorem list_find?_of_first {p : α → Bool} :
    ∀ (l : List α) (i : Nat) (hi : i < l.length),
      (∀ j, (hj : j < i) → p (l.get ⟨j, lt_trans hj hi⟩) = false) →
      p (l.get ⟨i, hi⟩) = true →
      l.find? p = some (l.get ⟨i, hi⟩) := by
  intro l
  induction l with
  | nil => intro i hi; simp at hi
  | cons a as ih =>
    intro i hi hbefore hp
    cases i with
    | zero =>
      simp only [List.get] at hp
      rw [List.find?_cons_of_pos _ hp]
      rfl
    | succ i' =>
      have h0 : p a = false := by
        have := hbefore 0 (Nat.succ_pos i')
        simpa using this
      rw [List.find?_cons_of_neg _ (by simp [h0])]
      have hi' : i' < as.length := Nat.lt_of_succ_lt_succ hi
      have := ih i' hi' (fun j hj => by
        have := hbefore (j + 1) (Nat.succ_lt_succ hj)
        simpa using this) (by simpa using hp)
      simpa using this

/-- C6: intent detection evaluates the fixed pattern table in the
priority order greeting, farewell, gratitude, question, complaint,
praise, help, purchase, support, cancel, confirm, deny, returning the
first matching label; when no pattern matches it returns the Bayes
classifier's output when that is truthy, and otherwise `unknown`. -/
theorem claim_C6_intent_priority :
    (AdvancedAIBrain.intentPatterns.map Prod.fst =
      ["greeting", "farewell", "gratitude", "question", "complaint", "praise", "help",
       "purchase", "support", "cancel", "confirm", "deny"]) ∧
    (∀ (env : AdvancedAIBrain.Env) (text : String) (i : Nat)
       (hi : i < AdvancedAIBrain.intentPatterns.length),
      ((AdvancedAIBrain.intentPatterns.get ⟨i, hi⟩).2.any (fun pat => pat.test text)) = true →
      (∀ j, (hj : j < i) →
        ((AdvancedAIBrain.intentPatterns.get ⟨j, lt_trans hj hi⟩).2.any
          (fun pat => pat.test text)) = false) →
      AdvancedAIBrain.detectIntent env text = (AdvancedAIBrain.intentPatterns.get ⟨i, hi⟩).1) ∧
    (∀ (env : AdvancedAIBrain.Env) (text : String),
      (∀ pr ∈ AdvancedAIBrain.intentPatterns, pr.2.any (fun pat => pat.test text) = false) →
      ((∃ c, env.bayesClassify text = some c ∧ c ≠ "" ∧
          AdvancedAIBrain.detectIntent env text = c) ∨
        (AdvancedAIBrain.detectIntent env text = "unknown" ∧
          (env.bayesClassify text = none ∨ env.bayesClassify text = some "")))) := by
  refine ⟨rfl, ?_, ?_⟩
  · intro env text i hi hp hbefore
    have hfind := list_find?_of_first (p := fun pr => pr.2.any (fun pat => pat.test text))
      AdvancedAIBrain.intentPatterns i hi (fun j hj => hbefore j hj) hp
    unfold AdvancedAIBrain.detectIntent
    rw [hfind]
  · intro env text hnone
    have hfind : AdvancedAIBrain.intentPatterns.find?
        (fun p => p.2.any (fun pat => pat.test text)) = none := by
      rw [List.find?_eq_none]
      intro pr hpr
      simp [hnone pr hpr]
    unfold AdvancedAIBrain.detectIntent
    rw [hfind]
    cases hb : env.bayesClassify text with
    | none => exact Or.inr ⟨rfl, Or.inl rfl⟩
    | some c =>
      by_cases hc : c = ""
      · subst hc
        exact Or.inr ⟨rfl, Or.inr rfl⟩
      · exact Or.inl ⟨c, rfl, hc,
          show (if c = "" then "unknown" else c) = c by rw [if_neg hc]⟩

/-- Witness for C6: `valeu` matches the third (gratitude) pattern and
nothing earlier, so the detected intent is `gratitude`; `zzz` matches no
pattern and the failing classifier yields `unknown`. -/
theorem claim_C6_witness :
    AdvancedAIBrain.detectIntent fixAdvEnv "valeu" =
      (AdvancedAIBrain.intentPatterns.get ⟨2, by decide⟩).1 ∧
    ((∃ c, fixAdvEnv.bayesClassify "zzz" = some c ∧ c ≠ "" ∧
        AdvancedAIBrain.detectIntent fixAdvEnv "zzz" = c) ∨
      (AdvancedAIBrain.detectIntent fixAdvEnv "zzz" = "unknown" ∧
        (fixAdvEnv.bayesClassify "zzz" = none ∨ fixAdvEnv.bayesClassify "zzz" = some ""))) :=
  ⟨claim_C6_intent_priority.2.1 fixAdvEnv "valeu" 2 (by decide) (by decide)
      (by decide),
   claim_C6_intent_priority.2.2 fixAdvEnv "zzz" (by decide)⟩

/-! ## Claim C8 -/

/-- C8 fails on the code: the boost condition tests the *query's*
detected intent, not the candidate's associated intent.  Concretely, with
the identity's recent intents being exactly `greeting` and the query
intent `greeting`, a candidate whose associated intent (derived from its
output text by `extractIntentFromResponse`) is `general` — which is *not*
among the last 3 recorded intents — still receives the 0.10 boost. -/
theorem claim_C8_counterexample :
    AdvancedAIBrain.extractIntentFromResponse fixC8Cand.text = "general" ∧
    (((AdvancedAIBrain.getConversationContext fixC8State "p1").drop
        ((AdvancedAIBrain.getConversationContext fixC8State "p1").length - 3)).map
        (fun e => e.intent)).contains "general" = false ∧
    AdvancedAIBrain.applyContextBoost fixC8State (some "p1") "greeting" [fixC8Cand] =
      [{ fixC8Cand with confidence := fixC8Cand.confidence + AdvancedAIBrain.wContext }] := by
  with_unfolding_all decide

/-- C8 amended: during scoring, when the identity has a non-empty
conversation context, the 0.10 context boost is added *uniformly to every
candidate* if and only if the query's detected intent appears among the
identity's last 3 recorded intents; candidates' own associated intents
play no role. -/
theorem claim_C8_amended (st : AdvancedAIBrain.State) (p intent : String)
    (cs : List AdvancedAIBrain.Candidate)
    (hctx : AdvancedAIBrain.getConversationContext st p ≠ []) :
    AdvancedAIBrain.applyContextBoost st (some p) intent cs =
      if (((AdvancedAIBrain.getConversationContext st p).drop
            ((AdvancedAIBrain.getConversationContext st p).length - 3)).map
            (fun e => e.intent)).contains intent
      then cs.map (fun c => { c with confidence := c.confidence + AdvancedAIBrain.wContext })
      else cs := by
  unfold AdvancedAIBrain.applyContextBoost
  have hne : (AdvancedAIBrain.getConversationContext st p).isEmpty = false := by
    cases hgc : AdvancedAIBrain.getConversationContext st p with
    | nil => exact absurd hgc hctx
    | cons a as => rfl
  simp only [hne, Bool.false_eq_true, if_false]
  by_cases hrec : (((AdvancedAIBrain.getConversationContext st p).drop
      ((AdvancedAIBrain.getConversationContext st p).length - 3)).map
      (fun e => e.intent)).contains intent = true
  · rw [if_pos hrec]
    exact List.map_congr_left (fun c hc => by rw [if_pos hrec])
  · rw [if_neg hrec]
    have : cs.map (fun c =>
        if (((AdvancedAIBrain.getConversationContext st p).drop
              ((AdvancedAIBrain.getConversationContext st p).length - 3)).map
              (fun e => e.intent)).contains intent
        then { c with confidence := c.confidence + AdvancedAIBrain.wContext }
        else c) = cs.map id :=
      List.map_congr_left (fun c hc => by rw [if_neg hrec]; rfl)
    rw [this, List.map_id]

/-- Witness for the amended C8 on the concrete context state: the query
intent `greeting` is among the recent intents, so every candidate gets
the uniform boost. -/
theorem claim_C8_amended_witness :
    AdvancedAIBrain.getConversationContext fixC8State "p1" ≠ [] ∧
    AdvancedAIBrain.applyContextBoost fixC8State (some "p1") "greeting" [fixC8Cand] =
      (if (((AdvancedAIBrain.getConversationContext fixC8State "p1").drop
            ((AdvancedAIBrain.getConversationContext fixC8State "p1").length - 3)).map
            (fun e => e.intent)).contains "greeting"
       then [fixC8Cand].map
         (fun c => { c with confidence := c.confidence + AdvancedAIBrain.wContext })
       else [fixC8Cand]) :=
  ⟨by with_unfolding_all decide,
   claim_C8_amended fixC8State "p1" "greeting" [fixC8Cand] (by with_unfolding_all decide)⟩

/-! ## Claim C5 -/

theorem textConfidenceSum_cons (c : AdvancedAIBrain.Candidate)
    (cs : List AdvancedAIBrain.Candidate) (t : String) :
    AdvancedAIBrain.textConfidenceSum (c :: cs) t =
      (if c.text = t then c.confidence else 0) + AdvancedAIBrain.textConfidenceSum cs t := by
  unfold AdvancedAIBrain.textConfidenceSum
  by_cases h : c.text = t
  · rw [if_pos h]
    rw [List.filter_cons_of_pos (by simpa using h)]
    simp
  · rw [if_neg h]
    rw [List.filter_cons_of_neg (by simpa using h)]
    simp

theorem addCand_groupSum (c : AdvancedAIBrain.Candidate) (t : String) :
    ∀ gs : List AdvancedAIBrain.Group,
      AdvancedAIBrain.groupConfidenceSum (AdvancedAIBrain.addCand gs c) t =
        AdvancedAIBrain.groupConfidenceSum gs t + (if c.text = t then c.confidence else 0) := by
  intro gs
  induction gs with
  | nil =>
    unfold AdvancedAIBrain.addCand AdvancedAIBrain.groupConfidenceSum
    by_cases h : c.text = t
    · rw [List.filter_cons_of_pos (by simpa using h), if_pos h]
      simp
    · rw [List.filter_cons_of_neg (by simpa using h), if_neg h]
      simp
  | cons g gs ih =>
    unfold AdvancedAIBrain.addCand
    by_cases hg : g.text = c.text
    · rw [if_pos hg]
      unfold AdvancedAIBrain.groupConfidenceSum
      by_cases ht : g.text = t
      · have hct : c.text = t := hg ▸ ht
        rw [List.filter_cons_of_pos (by simpa using ht),
          List.filter_cons_of_pos (by simpa using ht), if_pos hct]
        simp only [List.map_cons, List.sum_cons]
        ring
      · have hct : ¬(c.text = t) := fun hc => ht (hg ▸ hc)
        rw [List.filter_cons_of_neg (by simpa using ht),
          List.filter_cons_of_neg (by simpa using ht), if_neg hct]
        simp
    · rw [if_neg hg]
      unfold AdvancedAIBrain.groupConfidenceSum
      by_cases ht : g.text = t
      · rw [List.filter_cons_of_pos (by simpa using ht),
          List.filter_cons_of_pos (by simpa using ht)]
        simp only [List.map_cons, List.sum_cons]
        have := ih
        unfold AdvancedAIBrain.groupConfidenceSum at this
        rw [this]
        ring
      · rw [List.filter_cons_of_neg (by simpa using ht),
          List.filter_cons_of_neg (by simpa using ht)]
        have := ih
        unfold AdvancedAIBrain.groupConfidenceSum at this
        rw [this]

theorem groupByText_sum_aux (t : String) :
    ∀ (cs : List AdvancedAIBrain.Candidate) (acc : List AdvancedAIBrain.Group),
      AdvancedAIBrain.groupConfidenceSum (cs.foldl AdvancedAIBrain.addCand acc) t =
        AdvancedAIBrain.groupConfidenceSum acc t + AdvancedAIBrain.textConfidenceSum cs t := by
  intro cs
  induction cs with
  | nil =>
    intro acc
    simp [AdvancedAIBrain.textConfidenceSum]
  | cons c cs ih =>
    intro acc
    rw [List.foldl_cons, ih, addCand_groupSum, textConfidenceSum_cons]
    ring

theorem groupByText_sum (cs : List AdvancedAIBrain.Candidate) (t : String) :
    AdvancedAIBrain.groupConfidenceSum (AdvancedAIBrain.groupByText cs) t =
      AdvancedAIBrain.textConfidenceSum cs t := by
  have := groupByText_sum_aux t cs []
  simpa [AdvancedAIBrain.groupByText, AdvancedAIBrain.groupConfidenceSum] using this

theorem mem_addCand_text (c : AdvancedAIBrain.Candidate) :
    ∀ (gs : List AdvancedAIBrain.Group) (g : AdvancedAIBrain.Group),
      g ∈ AdvancedAIBrain.addCand gs c →
      g.text ∈ gs.map (fun x => x.text) ∨ g.text = c.text := by
  intro gs
  induction gs with
  | nil =>
    intro g hg
    unfold AdvancedAIBrain.addCand at hg
    rcases List.mem_singleton.mp hg with rfl
    exact Or.inr rfl
  | cons h hs ih =>
    intro g hg
    unfold AdvancedAIBrain.addCand at hg
    by_cases hh : h.text = c.text
    · rw [if_pos hh] at hg
      rcases List.mem_cons.mp hg with rfl | hg'
      · exact Or.inl (by simp)
      · exact Or.inl (by simp [List.mem_map]; exact Or.inr ⟨g, hg', rfl⟩)
    · rw [if_neg hh] at hg
      rcases List.mem_cons.mp hg with rfl | hg'
      · exact Or.inl (by simp)
      · rcases ih g hg' with hin | heq
        · exact Or.inl (by simp [List.mem_map] at hin ⊢; tauto)
        · exact Or.inr heq

theorem pairwise_addCand (c : AdvancedAIBrain.Candidate) :
    ∀ gs : List AdvancedAIBrain.Group,
      gs.Pairwise (fun g1 g2 => g1.text ≠ g2.text) →
      (AdvancedAIBrain.addCand gs c).Pairwise (fun g1 g2 => g1.text ≠ g2.text) := by
  intro gs
  induction gs with
  | nil => intro _; simp [AdvancedAIBrain.addCand]
  | cons g gs ih =>
    intro hp
    rw [List.pairwise_cons] at hp
    unfold AdvancedAIBrain.addCand
    by_cases hg : g.text = c.text
    · rw [if_pos hg]
      rw [List.pairwise_cons]
      exact ⟨fun y hy => hp.1 y hy, hp.2⟩
    · rw [if_neg hg]
      rw [List.pairwise_cons]
      constructor
      · intro y hy
        rcases mem_addCand_text c gs y hy with hin | heq
        · rcases List.mem_map.mp hin with ⟨z, hz, hzt⟩
          rw [← hzt]
          exact hp.1 z hz
        · rw [heq]
          exact hg
      · exact ih hp.2

theorem pairwise_groupByText_aux :
    ∀ (cs : List AdvancedAIBrain.Candidate) (acc : List AdvancedAIBrain.Group),
      acc.Pairwise (fun g1 g2 => g1.text ≠ g2.text) →
      (cs.foldl AdvancedAIBrain.addCand acc).Pairwise (fun g1 g2 => g1.text ≠ g2.text) := by
  intro cs
  induction cs with
  | nil => intro acc h; simpa using h
  | cons c cs ih =>
    intro acc h
    rw [List.foldl_cons]
    exact ih _ (pairwise_addCand c acc h)

theorem pairwise_groupByText (cs : List AdvancedAIBrain.Candidate) :
    (AdvancedAIBrain.groupByText cs).Pairwise (fun g1 g2 => g1.text ≠ g2.text) :=
  pairwise_groupByText_aux cs [] (by simp)

theorem mem_group_confidence :
    ∀ (gs : List AdvancedAIBrain.Group),
      gs.Pairwise (fun g1 g2 => g1.text ≠ g2.text) →
      ∀ g ∈ gs, AdvancedAIBrain.groupConfidenceSum gs g.text = g.confidence := by
  intro gs
  induction gs with
  | nil => intro _ g hg; simp at hg
  | cons h hs ih =>
    intro hp g hg
    rw [List.pairwise_cons] at hp
    rcases List.mem_cons.mp hg with rfl | hg'
    · unfold AdvancedAIBrain.groupConfidenceSum
      rw [List.filter_cons_of_pos (by simp)]
      have hrest : hs.filter (fun x => x.text = g.text) = [] := by
        rw [List.filter_eq_nil_iff]
        intro a ha
        simpa using (hp.1 a ha).symm
      rw [hrest]
      simp
    · have hht : ¬(h.text = g.text) := hp.1 g hg'
      unfold AdvancedAIBrain.groupConfidenceSum
      rw [List.filter_cons_of_neg (by simpa using hht)]
      have := ih hp.2 g hg'
      unfold AdvancedAIBrain.groupConfidenceSum at this
      exact this

theorem addCand_ne_nil (gs : List AdvancedAIBrain.Group) (c : AdvancedAIBrain.Candidate) :
    AdvancedAIBrain.addCand gs c ≠ [] := by
  cases gs with
  | nil => simp [AdvancedAIBrain.addCand]
  | cons g gs =>
    unfold AdvancedAIBrain.addCand
    by_cases hg : g.text = c.text
    · rw [if_pos hg]; simp
    · rw [if_neg hg]; simp

theorem foldl_addCand_ne_nil :
    ∀ (cs : List AdvancedAIBrain.Candidate) (acc : List AdvancedAIBrain.Group),
      acc ≠ [] → cs.foldl AdvancedAIBrain.addCand acc ≠ [] := by
  intro cs
  induction cs with
  | nil => intro acc h; simpa using h
  | cons c cs ih =>
    intro acc h
    rw [List.foldl_cons]
    exact ih _ (addCand_ne_nil acc c)

theorem groupByText_ne_nil (cs : List AdvancedAIBrain.Candidate) (h : cs ≠ []) :
    AdvancedAIBrain.groupByText cs ≠ [] := by
  cases cs with
  | nil => exact absurd rfl h
  | cons c cs =>
    unfold AdvancedAIBrain.groupByText
    rw [List.foldl_cons]
    exact foldl_addCand_ne_nil cs _ (addCand_ne_nil [] c)

/-- C5: for every non-empty candidate set with non-negative confidence
contributions (all algorithm contributions are non-negative), the fused
result's text is that of a group of maximal aggregate confidence, where a
group's aggregate is the sum of the contributions of the candidates
sharing its output text; the returned confidence is that maximal
aggregate clamped to `1.0`, and always lies in `[0, 1]`. -/
theorem claim_C5_fusion (cs : List AdvancedAIBrain.Candidate) (hne : cs ≠ [])
    (hnn : ∀ c ∈ cs, 0 ≤ c.confidence) :
    0 ≤ (AdvancedAIBrain.fuseCandidates cs).confidence ∧
    (AdvancedAIBrain.fuseCandidates cs).confidence ≤ 1 ∧
    ∃ g ∈ AdvancedAIBrain.groupByText cs,
      (AdvancedAIBrain.fuseCandidates cs).text = g.text ∧
      g.confidence = AdvancedAIBrain.textConfidenceSum cs g.text ∧
      (AdvancedAIBrain.fuseCandidates cs).confidence = min g.confidence 1 ∧
      ∀ g' ∈ AdvancedAIBrain.groupByText cs, g'.confidence ≤ g.confidence := by
  have hgne := groupByText_ne_nil cs hne
  have hmax := sortDescBy_head_max (fun g : AdvancedAIBrain.Group => g.confidence)
    (AdvancedAIBrain.groupByText cs) ⟨"", 0, []⟩ hgne
  set g := (sortDescBy (fun g : AdvancedAIBrain.Group => g.confidence)
    (AdvancedAIBrain.groupByText cs)).headD ⟨"", 0, []⟩ with hgdef
  have hsum : AdvancedAIBrain.groupConfidenceSum (AdvancedAIBrain.groupByText cs) g.text
      = g.confidence := mem_group_confidence _ (pairwise_groupByText cs) g hmax.1
  have hagg : g.confidence = AdvancedAIBrain.textConfidenceSum cs g.text := by
    rw [← hsum, groupByText_sum]
  have h0 : 0 ≤ g.confidence := by
    rw [hagg]
    unfold AdvancedAIBrain.textConfidenceSum
    apply List.sum_nonneg
    intro x hx
    rcases List.mem_map.mp hx with ⟨c, hc, rfl⟩
    exact hnn c (List.mem_of_mem_filter hc)
  have hconf : (AdvancedAIBrain.fuseCandidates cs).confidence = min g.confidence 1 := rfl
  have htext : (AdvancedAIBrain.fuseCandidates cs).text = g.text := rfl
  refine ⟨?_, ?_, g, hmax.1, htext, hagg, hconf, fun g' hg' => hmax.2 g' hg'⟩
  · rw [hconf]
    exact le_min h0 zero_le_one
  · rw [hconf]
    exact min_le_right _ _

/-- Witness for C5 on a concrete candidate list whose two `A` candidates
aggregate to `1.2`, clamped to `1`. -/
theorem claim_C5_witness :
    0 ≤ (AdvancedAIBrain.fuseCandidates fixC5Cands).confidence ∧
    (AdvancedAIBrain.fuseCandidates fixC5Cands).confidence ≤ 1 ∧
    ∃ g ∈ AdvancedAIBrain.groupByText fixC5Cands,
      (AdvancedAIBrain.fuseCandidates fixC5Cands).text = g.text ∧
      g.confidence = AdvancedAIBrain.textConfidenceSum fixC5Cands g.text ∧
      (AdvancedAIBrain.fuseCandidates fixC5Cands).confidence = min g.confidence 1 ∧
      ∀ g' ∈ AdvancedAIBrain.groupByText fixC5Cands, g'.confidence ≤ g.confidence :=
  claim_C5_fusion fixC5Cands (by simp [fixC5Cands]) (by with_unfolding_all decide)

/-! ## Claim C10 -/

theorem processMessage_empty (env : AdvancedAIBrain.Env) (st : AdvancedAIBrain.State)
    (v : JSVal) (uctx : AdvancedAIBrain.UserCtx) (now : Nat)
    (h : AdvancedAIBrain.sanitizeInput v = "") :
    AdvancedAIBrain.processMessage env st v uctx now =
      ⟨AdvancedAIBrain.getErrorResponse "Empty message after sanitization", st, false⟩ := by
  simp only [AdvancedAIBrain.processMessage]
  rw [h]
  rfl

/-- C10: the v2 `processMessage` is total — every input, including a
non-string value or a string that is empty after sanitization, yields a
result object (the embedding is a total function); in the error branch
the result is the fixed error response with confidence `0` and
`needsHumanHandoff = true`, and the brain state is unchanged. -/
theorem claim_C10_processMessage_total :
    AdvancedAIBrain.sanitizeInput JSVal.other = "" ∧
    (∀ q : ℚ, AdvancedAIBrain.sanitizeInput (JSVal.num q) = "") ∧
    (∀ (env : AdvancedAIBrain.Env) (st : AdvancedAIBrain.State) (v : JSVal)
       (uctx : AdvancedAIBrain.UserCtx) (now : Nat),
      AdvancedAIBrain.sanitizeInput v = "" →
      (AdvancedAIBrain.processMessage env st v uctx now).result =
        AdvancedAIBrain.getErrorResponse "Empty message after sanitization" ∧
      (AdvancedAIBrain.processMessage env st v uctx now).result.confidence = 0 ∧
      (AdvancedAIBrain.processMessage env st v uctx now).result.needsHumanHandoff = true ∧
      (AdvancedAIBrain.processMessage env st v uctx now).state = st) := by
  refine ⟨rfl, fun q => rfl, ?_⟩
  intro env st v uctx now hempty
  rw [processMessage_empty env st v uctx now hempty]
  exact ⟨rfl, rfl, rfl, rfl⟩

/-- Witness for C10 at a whitespace-only string and at a non-string
input. -/
theorem claim_C10_witness :
    AdvancedAIBrain.sanitizeInput (JSVal.str "   ") = "" ∧
    (AdvancedAIBrain.processMessage fixAdvEnv fixAdvState0 (JSVal.str "   ") ⟨none⟩ 0).result.confidence
      = 0 ∧
    (AdvancedAIBrain.processMessage fixAdvEnv fixAdvState0 (JSVal.str "   ") ⟨none⟩ 0).result.needsHumanHandoff
      = true ∧
    (AdvancedAIBrain.processMessage fixAdvEnv fixAdvState0 JSVal.other ⟨none⟩ 0).result.confidence
      = 0 ∧
    (AdvancedAIBrain.processMessage fixAdvEnv fixAdvState0 JSVal.other ⟨none⟩ 0).result.needsHumanHandoff
      = true :=
  ⟨by decide,
   (claim_C10_processMessage_total.2.2 fixAdvEnv fixAdvState0 (JSVal.str "   ") ⟨none⟩ 0
     (by decide)).2.1,
   (claim_C10_processMessage_total.2.2 fixAdvEnv fixAdvState0 (JSVal.str "   ") ⟨none⟩ 0
     (by decide)).2.2.1,
   (claim_C10_processMessage_total.2.2 fixAdvEnv fixAdvState0 JSVal.other ⟨none⟩ 0
     (by decide)).2.1,
   (claim_C10_processMessage_total.2.2 fixAdvEnv fixAdvState0 JSVal.other ⟨none⟩ 0
     (by decide)).2.2.1⟩

/-! ## Claim C4 -/

theorem updateStats_responseCache (st : AdvancedAIBrain.State) (r : AdvancedAIBrain.Result) :
    (AdvancedAIBrain.updateStats st r).responseCache = st.responseCache := rfl

theorem updateStats_config (st : AdvancedAIBrain.State) (r : AdvancedAIBrain.Result) :
    (AdvancedAIBrain.updateStats st r).config = st.config := rfl

theorem learn_responseCache (st : AdvancedAIBrain.State) (i o : String) (a : Bool) :
    (AdvancedAIBrain.learn st i o a).2.responseCache = st.responseCache := rfl

theorem learn_config (st : AdvancedAIBrain.State) (i o : String) (a : Bool) :
    (AdvancedAIBrain.learn st i o a).2.config = st.config := rfl

theorem learnFromInteraction_responseCache (st : AdvancedAIBrain.State) (i o : String) (c : ℚ) :
    (AdvancedAIBrain.learnFromInteraction st i o c).responseCache = st.responseCache := by
  unfold AdvancedAIBrain.learnFromInteraction
  split <;> rfl

theorem learnFromInteraction_config (st : AdvancedAIBrain.State) (i o : String) (c : ℚ) :
    (AdvancedAIBrain.learnFromInteraction st i o c).config = st.config := by
  unfold AdvancedAIBrain.learnFromInteraction
  split <;> rfl

theorem updateConversationContext_responseCache (st : AdvancedAIBrain.State)
    (phone : Option String) (e : AdvancedAIBrain.ContextEntry) :
    (AdvancedAIBrain.updateConversationContext st phone e).responseCache = st.responseCache := by
  cases phone <;> rfl

theorem updateConversationContext_config (st : AdvancedAIBrain.State)
    (phone : Option String) (e : AdvancedAIBrain.ContextEntry) :
    (AdvancedAIBrain.updateConversationContext st phone e).config = st.config := by
  cases phone <;> rfl

theorem findBestResponse_responseCache (env : AdvancedAIBrain.Env) (st : AdvancedAIBrain.State)
    (processed : String) (uctx : AdvancedAIBrain.UserCtx) (intent : String) :
    (AdvancedAIBrain.findBestResponse env st processed uctx intent).2.responseCache =
      st.responseCache := by
  simp only [AdvancedAIBrain.findBestResponse]
  repeat' split
  all_goals rfl

theorem findBestResponse_config (env : AdvancedAIBrain.Env) (st : AdvancedAIBrain.State)
    (processed : String) (uctx : AdvancedAIBrain.UserCtx) (intent : String) :
    (AdvancedAIBrain.findBestResponse env st processed uctx intent).2.config = st.config := by
  simp only [AdvancedAIBrain.findBestResponse]
  repeat' split
  all_goals rfl

theorem getCachedResponse_miss (ttl : Nat) (cache : List (String × AdvancedAIBrain.CacheEntry))
    (msg : String) (now : Nat) (hmiss : cache.lookup msg = none) :
    AdvancedAIBrain.getCachedResponse ttl cache msg now = (none, cache) := by
  unfold AdvancedAIBrain.getCachedResponse
  rw [hmiss]

theorem getCachedResponse_hit (ttl : Nat) (cache : List (String × AdvancedAIBrain.CacheEntry))
    (msg : String) (now : Nat) (e : AdvancedAIBrain.CacheEntry)
    (hlkp : cache.lookup msg = some e) (hfresh : ¬(ttl < now - e.timestamp)) :
    AdvancedAIBrain.getCachedResponse ttl cache msg now = (some e.response, cache) := by
  unfold AdvancedAIBrain.getCachedResponse
  simp only [hlkp]
  rw [if_neg hfresh]

theorem processMessage_miss (env : AdvancedAIBrain.Env) (st : AdvancedAIBrain.State)
    (v : JSVal) (uctx : AdvancedAIBrain.UserCtx) (now : Nat)
    (hclean : ¬(AdvancedAIBrain.sanitizeInput v = ""))
    (hen : st.config.cacheEnabled = true)
    (hmiss : st.responseCache.lookup (AdvancedAIBrain.sanitizeInput v) = none) :
    AdvancedAIBrain.processMessage env st v uctx now =
      AdvancedAIBrain.processCore env st (AdvancedAIBrain.sanitizeInput v) uctx now := by
  simp only [AdvancedAIBrain.processMessage]
  rw [if_neg hclean, if_pos hen, getCachedResponse_miss _ _ _ _ hmiss]

theorem processMessage_hit (env : AdvancedAIBrain.Env) (st : AdvancedAIBrain.State)
    (v : JSVal) (uctx : AdvancedAIBrain.UserCtx) (now : Nat) (e : AdvancedAIBrain.CacheEntry)
    (hclean : ¬(AdvancedAIBrain.sanitizeInput v = ""))
    (hen : st.config.cacheEnabled = true)
    (hlkp : st.responseCache.lookup (AdvancedAIBrain.sanitizeInput v) = some e)
    (hfresh : ¬(st.config.cacheTTL < now - e.timestamp)) :
    (AdvancedAIBrain.processMessage env st v uctx now).result = e.response ∧
    (AdvancedAIBrain.processMessage env st v uctx now).invokedScoring = false := by
  simp only [AdvancedAIBrain.processMessage]
  rw [if_neg hclean, if_pos hen, getCachedResponse_hit _ _ _ _ _ hlkp hfresh]
  exact ⟨rfl, rfl⟩

theorem processCore_config (env : AdvancedAIBrain.Env) (st : AdvancedAIBrain.State)
    (clean : String) (uctx : AdvancedAIBrain.UserCtx) (now : Nat) :
    (AdvancedAIBrain.processCore env st clean uctx now).state.config = st.config := by
  simp only [AdvancedAIBrain.processCore]
  split_ifs <;>
    simp [learnFromInteraction_config, updateStats_config, findBestResponse_config,
      updateConversationContext_config]

theorem processCore_cache_lookup (env : AdvancedAIBrain.Env) (st : AdvancedAIBrain.State)
    (clean : String) (uctx : AdvancedAIBrain.UserCtx) (now : Nat)
    (hen : st.config.cacheEnabled = true)
    (hconf : (0.8 : ℚ) ≤ (AdvancedAIBrain.processCore env st clean uctx now).result.confidence) :
    ((AdvancedAIBrain.processCore env st clean uctx now).state.responseCache).lookup clean =
      some ⟨(AdvancedAIBrain.processCore env st clean uctx now).result, now⟩ := by
  simp only [AdvancedAIBrain.processCore] at hconf ⊢
  split_ifs with h1 h2 h3
  · simp [learnFromInteraction_responseCache, updateStats_responseCache,
      AdvancedAIBrain.cacheResponse, lookup_mapSet_self]
  · exfalso
    simp only [hen, Bool.true_and, decide_eq_true_eq] at h2
    exact h2 hconf
  · simp [updateStats_responseCache, AdvancedAIBrain.cacheResponse, lookup_mapSet_self]
  · exfalso
    simp only [hen, Bool.true_and, decide_eq_true_eq] at h3
    exact h3 hconf

/-- C4 fails on the code: results are cached only when their confidence
reaches the publish threshold `0.8`.  On the concrete one-example corpus
with inert collaborators, the first `processMessage("oi")` scores
confidence `0 < 0.8`, nothing is cached, and a second identical call
within the TTL runs the scoring pipeline again (the ghost
`invokedScoring` instrumentation is `true` for both calls). -/
theorem claim_C4_counterexample :
    ((AdvancedAIBrain.processMessage fixAdvEnv fixC4State (.str "oi") ⟨none⟩ 0).result.confidence
      < 0.8) ∧
    (1 - 0 ≤ fixC4State.config.cacheTTL) ∧
    ((AdvancedAIBrain.processMessage fixAdvEnv
        (AdvancedAIBrain.processMessage fixAdvEnv fixC4State (.str "oi") ⟨none⟩ 0).state
        (.str "oi") ⟨none⟩ 1).invokedScoring = true) := by
  with_unfolding_all decide

/-- C4 amended: (i) a cache lookup strictly more than `cacheTTL` after
the entry's insertion never returns the entry; (ii) when caching is
enabled and a first call on input `v` is a cache miss whose resulting
confidence reaches the publish threshold `0.8`, a second call with the
same input within the TTL returns the identical stored result without
invoking the scoring pipeline. -/
theorem claim_C4_amended :
    (∀ (ttl : Nat) (cache : List (String × AdvancedAIBrain.CacheEntry)) (msg : String)
       (now : Nat) (e : AdvancedAIBrain.CacheEntry),
      cache.lookup msg = some e → ttl < now - e.timestamp →
      (AdvancedAIBrain.getCachedResponse ttl cache msg now).1 = none) ∧
    (∀ (env : AdvancedAIBrain.Env) (st : AdvancedAIBrain.State) (v : JSVal)
       (uctx : AdvancedAIBrain.UserCtx) (t1 t2 : Nat),
      st.config.cacheEnabled = true →
      st.responseCache.lookup (AdvancedAIBrain.sanitizeInput v) = none →
      (0.8 : ℚ) ≤ (AdvancedAIBrain.processMessage env st v uctx t1).result.confidence →
      t2 - t1 ≤ st.config.cacheTTL →
      (AdvancedAIBrain.processMessage env
          (AdvancedAIBrain.processMessage env st v uctx t1).state v uctx t2).result =
        (AdvancedAIBrain.processMessage env st v uctx t1).result ∧
      (AdvancedAIBrain.processMessage env
          (AdvancedAIBrain.processMessage env st v uctx t1).state v uctx t2).invokedScoring =
        false) := by
  constructor
  · intro ttl cache msg now e hlkp hstale
    unfold AdvancedAIBrain.getCachedResponse
    simp only [hlkp]
    rw [if_pos hstale]
  · intro env st v uctx t1 t2 hen hmiss hconf httl
    by_cases hclean : AdvancedAIBrain.sanitizeInput v = ""
    · exfalso
      rw [processMessage_empty env st v uctx t1 hclean] at hconf
      norm_num [AdvancedAIBrain.getErrorResponse] at hconf
    · have hfirst : AdvancedAIBrain.processMessage env st v uctx t1 =
          AdvancedAIBrain.processCore env st (AdvancedAIBrain.sanitizeInput v) uctx t1 :=
        processMessage_miss env st v uctx t1 hclean hen hmiss
      rw [hfirst] at hconf ⊢
      have hlkp := processCore_cache_lookup env st (AdvancedAIBrain.sanitizeInput v) uctx t1
        hen hconf
      have hcfg := processCore_config env st (AdvancedAIBrain.sanitizeInput v) uctx t1
      have hen' : (AdvancedAIBrain.processCore env st (AdvancedAIBrain.sanitizeInput v) uctx
          t1).state.config.cacheEnabled = true := by rw [hcfg]; exact hen
      have hfresh : ¬((AdvancedAIBrain.processCore env st (AdvancedAIBrain.sanitizeInput v) uctx
          t1).state.config.cacheTTL < t2 - t1) := by
        rw [hcfg]
        exact not_lt.mpr httl
      exact processMessage_hit env _ v uctx t2 _ hclean hen' hlkp hfresh

/-- Witness for the amended C4: a stale concrete entry is rejected, and
on a corpus whose TF-IDF collaborator scores `3` (confidence `0.9`), the
second identical call within the TTL returns the identical result
without scoring. -/
theorem claim_C4_amended_witness :
    ((AdvancedAIBrain.getCachedResponse 5
        [("k", ⟨AdvancedAIBrain.getErrorResponse "x", 0⟩)] "k" 100).1 = none) ∧
    ((AdvancedAIBrain.processMessage fixAdvEnvHi
        (AdvancedAIBrain.processMessage fixAdvEnvHi fixC4State (.str "oi") ⟨none⟩ 0).state
        (.str "oi") ⟨none⟩ 1).result =
      (AdvancedAIBrain.processMessage fixAdvEnvHi fixC4State (.str "oi") ⟨none⟩ 0).result ∧
     (AdvancedAIBrain.processMessage fixAdvEnvHi
        (AdvancedAIBrain.processMessage fixAdvEnvHi fixC4State (.str "oi") ⟨none⟩ 0).state
        (.str "oi") ⟨none⟩ 1).invokedScoring = false) :=
  ⟨claim_C4_amended.1 5 [("k", ⟨AdvancedAIBrain.getErrorResponse "x", 0⟩)] "k" 100
      ⟨AdvancedAIBrain.getErrorResponse "x", 0⟩ (by with_unfolding_all decide)
      (by decide),
   claim_C4_amended.2 fixAdvEnvHi fixC4State (.str "oi") ⟨none⟩ 0 1 rfl
      (by with_unfolding_all decide) (by with_unfolding_all decide) (by decide)⟩

end WhatsAppBot
